import Mathlib

/-!
Functions framework: registration, target resolution, plugins, HTTP adapters.

A shallow embedding of `framework/framework.go` and `runtime/knative/knative.go`.

Go values that the framework only passes around (handlers, plugins, native
contexts) are identified by a reference number.  Calls made on interfaces
(`runtime.Interface`, `http.ResponseWriter`) are recorded, in order, in the state
that stands for the interface value; what an interface call returns is supplied
by the environment.  The chi router is the list of the routes added to it; a
call that the router rejects panics and adds none.
-/

namespace FunctionsFramework

/-! ## Go maps with string keys -/

/-- Go `map[string]V`: a list of bindings with pairwise distinct keys, read by key. -/
abbrev GoMap (V : Type) := List (String × V)

/-- Map read `m[k]` in its two-result form `v, ok := m[k]`. -/
def GoMap.get {V : Type} (m : GoMap V) (k : String) : Option V :=
  match m with
  | [] => none
  | (k1, v1) :: rest => if k1 = k then some v1 else GoMap.get rest k

/-- Map write `m[k] = v`: replaces the binding of `k` or adds one. -/
def GoMap.set {V : Type} (m : GoMap V) (k : String) (v : V) : GoMap V :=
  match m with
  | [] => [(k, v)]
  | (k1, v1) :: rest => if k1 = k then (k, v) :: rest else (k1, v1) :: GoMap.set rest k v

/-! ## Collaborator data: handlers, plugins, contexts -/

/-- Reference to a Go function value (a user handler). -/
structure FuncRef where
  id : Nat
deriving DecidableEq, Repr

/-- Reference to a `plugin.Plugin` value. -/
structure Plugin where
  id : Nat
deriving DecidableEq, Repr

/-- Reference to a native `context.Context`. -/
structure GoContext where
  id : Nat
deriving DecidableEq, Repr

/-- Runtime kind `ofctx.Runtime`, with the two constants the framework compares against. -/
inductive Runtime where
  | Knative
  | Async
  | other (name : String)
deriving DecidableEq, Repr

/-- Modelled from the spec: the `ofctx.RuntimeContext` snapshot (package `context` lies
outside the files embedded here), with the fields of section 3 of the spec and the
function name returned by `GetName`. -/
structure RuntimeContext where
  name : String
  runtime : Runtime
  port : String
  httpPattern : String
  prePlugins : List String
  postPlugins : List String
  hasInputs : Bool
  hasOutputs : Bool
deriving DecidableEq, Repr

def RuntimeContext.GetName (c : RuntimeContext) : String := c.name
def RuntimeContext.GetRuntime (c : RuntimeContext) : Runtime := c.runtime
def RuntimeContext.GetHttpPattern (c : RuntimeContext) : String := c.httpPattern
def RuntimeContext.GetPrePlugins (c : RuntimeContext) : List String := c.prePlugins
def RuntimeContext.GetPostPlugins (c : RuntimeContext) : List String := c.postPlugins
def RuntimeContext.HasInputs (c : RuntimeContext) : Bool := c.hasInputs
def RuntimeContext.HasOutputs (c : RuntimeContext) : Bool := c.hasOutputs

/-! ## Package `functions`: registered functions -/

/-- Trigger kind of a registered function.  The framework switches on three constants
and keeps a default branch for any other value. -/
inductive FunctionType where
  | HTTPType
  | CloudEventType
  | OpenFunctionType
  | other (tag : String)
deriving DecidableEq, Repr

/-- Whether the kind is one of the three trigger kinds. -/
def FunctionType.isKnown : FunctionType → Bool
  | .other _ => false
  | _ => true

/-- Modelled from the spec: the `FunctionEntry` of section 3 (package
`internal/functions` lies outside the files embedded here): name, path, methods,
trigger kind and handler.  The handler is kept per signature because the three
getters used by the framework return differently typed callables; a `none` is a nil
function value. -/
structure RegisteredFunction where
  functionName : String
  functionPath : String
  functionMethods : List String
  functionType : FunctionType
  httpFn : Option FuncRef
  cloudEventFn : Option FuncRef
  openFunctionFn : Option FuncRef
deriving DecidableEq, Repr

def RegisteredFunction.GetName (rf : RegisteredFunction) : String := rf.functionName
def RegisteredFunction.GetPath (rf : RegisteredFunction) : String := rf.functionPath
def RegisteredFunction.GetFunctionMethods (rf : RegisteredFunction) : List String :=
  rf.functionMethods
def RegisteredFunction.GetFunctionType (rf : RegisteredFunction) : FunctionType :=
  rf.functionType
def RegisteredFunction.GetHTTPFunction (rf : RegisteredFunction) : Option FuncRef := rf.httpFn
def RegisteredFunction.GetCloudEventFunction (rf : RegisteredFunction) : Option FuncRef :=
  rf.cloudEventFn
def RegisteredFunction.GetOpenFunctionFunction (rf : RegisteredFunction) : Option FuncRef :=
  rf.openFunctionFn

/-- The handler an entry carries for its own trigger kind. -/
def RegisteredFunction.handler (rf : RegisteredFunction) : Option FuncRef :=
  match rf.functionType with
  | .HTTPType => rf.httpFn
  | .CloudEventType => rf.cloudEventFn
  | .OpenFunctionType => rf.openFunctionFn
  | .other _ => none

/-- Option passed to `functions.New`. -/
inductive FunctionOption where
  | WithFunctionName (name : String)
  | WithFunctionPath (path : String)
  | WithHTTP (fn : Option FuncRef)
  | WithCloudEvent (fn : Option FuncRef)
  | WithOpenFunction (fn : Option FuncRef)
deriving DecidableEq, Repr

/-- Effect of one option on the function under construction. -/
def FunctionOption.apply (o : FunctionOption) (rf : RegisteredFunction) : RegisteredFunction :=
  match o with
  | .WithFunctionName name => { rf with functionName := name }
  | .WithFunctionPath path => { rf with functionPath := path }
  | .WithHTTP fn => { rf with functionType := .HTTPType, httpFn := fn }
  | .WithCloudEvent fn => { rf with functionType := .CloudEventType, cloudEventFn := fn }
  | .WithOpenFunction fn => { rf with functionType := .OpenFunctionType, openFunctionFn := fn }

/-- Modelled from the spec: `functions.New` (package `internal/functions` lies outside
the files embedded here) builds a `FunctionEntry` from its options, applied in order to an
empty entry.  The spec names no failure of this constructor, so the error it may return,
which `Register` only logs, does not occur here. -/
def functions.New (options : List FunctionOption) : RegisteredFunction :=
  options.foldl (fun rf o => o.apply rf)
    { functionName := "", functionPath := "", functionMethods := [],
      functionType := .other "", httpFn := none, cloudEventFn := none,
      openFunctionFn := none }

/-! ## Package `registry` -/

/-- Modelled from the spec: the `Registry` of sections 3 and 4.1 (package
`internal/registry` lies outside the files embedded here): the registered entries,
keyed by their name, in the order `ListNames` enumerates them. -/
structure Registry where
  functions : List RegisteredFunction
deriving DecidableEq, Repr

/-- Modelled from the spec: `Lookup(name) -> (entry, found)` of section 4.1. -/
def Registry.GetRegisteredFunction (r : Registry) (name : String) : Option RegisteredFunction :=
  r.functions.find? (fun rf => decide (rf.functionName = name))

/-- Modelled from the spec: `ListNames() -> ordered sequence` of section 4.1. -/
def Registry.GetFunctionNames (r : Registry) : List String :=
  r.functions.map (fun rf => rf.functionName)

/-- Registry invariant of section 3 of the spec: names are unique. -/
def Registry.UniqueNames (r : Registry) : Prop := r.GetFunctionNames.Nodup

instance (r : Registry) : Decidable r.UniqueNames := by
  unfold Registry.UniqueNames
  infer_instance

/-- Data-model invariant of section 3 of the spec: every entry has one of the three
trigger kinds. -/
def Registry.KnownKinds (r : Registry) : Prop :=
  ∀ rf ∈ r.functions, rf.functionType.isKnown = true

instance (r : Registry) : Decidable r.KnownKinds := by
  unfold Registry.KnownKinds
  infer_instance

/-! ## The runtime interface as seen by the framework -/

/-- A call received by the `runtime.Interface` value held by the framework.  A context
argument is `none` when the Go interface value is nil. -/
inductive RuntimeCall where
  | RegisterHTTPFunction (ctx : Option RuntimeContext) (prePlugins postPlugins : List Plugin)
      (rf : RegisteredFunction)
  | RegisterOpenFunction (ctx : Option RuntimeContext) (prePlugins postPlugins : List Plugin)
      (rf : RegisteredFunction)
  | RegisterCloudEventFunction (ctx : GoContext) (funcContext : Option RuntimeContext)
      (prePlugins postPlugins : List Plugin) (rf : RegisteredFunction)
  | Start (ctx : GoContext)
deriving DecidableEq, Repr

/-- Whether a call is one of the three registration calls. -/
def RuntimeCall.isRegistration : RuntimeCall → Bool
  | .Start _ => false
  | _ => true

/-- Everything the framework reads from outside itself: the `FUNCTION_TARGET` variable,
the result of `ofctx.GetRuntimeContext()`, and the error (if any) the runtime returns
for a call, given the calls it received before. -/
structure Env where
  FUNCTION_TARGET : String
  GetRuntimeContext : Except String RuntimeContext
  runtimeResult : List RuntimeCall → RuntimeCall → Option String

/-- The framework value.  Field `runtime` is the list of calls its runtime has
received so far, oldest first. -/
structure functionsFrameworkImpl where
  funcContext : RuntimeContext
  funcContextMap : GoMap RuntimeContext
  prePlugins : List Plugin
  postPlugins : List Plugin
  pluginMap : GoMap Plugin
  runtime : List RuntimeCall
  registry : Registry

/-- One call on `fwk.runtime`: it is recorded and its error result is returned. -/
def callRuntime (env : Env) (fwk : functionsFrameworkImpl) (c : RuntimeCall) :
    functionsFrameworkImpl × Option String :=
  ({ fwk with runtime := fwk.runtime ++ [c] }, env.runtimeResult fwk.runtime c)

/-- A Go `interface{}` argument of `Register`, by dynamic type.  A value of a function
type may be a nil function. -/
inductive GoValue where
  | httpFunc (fn : Option FuncRef)
  | openFunctionFunc (fn : Option FuncRef)
  | cloudEventFunc (fn : Option FuncRef)
  | other (typeName : String)
deriving DecidableEq, Repr

/-- The registered function a registration call carries. -/
def RuntimeCall.registered : RuntimeCall → Option RegisteredFunction
  | .RegisterHTTPFunction _ _ _ rf => some rf
  | .RegisterOpenFunction _ _ _ rf => some rf
  | .RegisterCloudEventFunction _ _ _ _ rf => some rf
  | .Start _ => none

/-- The trigger kind a registration call binds an adapter for. -/
def RuntimeCall.kind : RuntimeCall → Option FunctionType
  | .RegisterHTTPFunction _ _ _ _ => some .HTTPType
  | .RegisterOpenFunction _ _ _ _ => some .OpenFunctionType
  | .RegisterCloudEventFunction _ _ _ _ _ => some .CloudEventType
  | .Start _ => none

/-! ## `framework.go` -/

/-- `functionsFrameworkImpl.Register`. -/
def Register (env : Env) (fwk : functionsFrameworkImpl) (ctx : GoContext) (fn : GoValue) :
    functionsFrameworkImpl × Option String :=
  match fn with
  | .httpFunc fnHTTP =>
    let rf := functions.New [.WithFunctionName fwk.funcContext.GetName, .WithHTTP fnHTTP,
      .WithFunctionPath fwk.funcContext.GetHttpPattern]
    match callRuntime env fwk
        (.RegisterHTTPFunction (some fwk.funcContext) fwk.prePlugins fwk.postPlugins rf) with
    | (fwk1, some err) => (fwk1, some err)
    | (fwk1, none) => (fwk1, none)
  | .openFunctionFunc fnOpenFunction =>
    let rf := functions.New [.WithFunctionName fwk.funcContext.GetName,
      .WithOpenFunction fnOpenFunction, .WithFunctionPath fwk.funcContext.GetHttpPattern]
    match callRuntime env fwk
        (.RegisterOpenFunction (some fwk.funcContext) fwk.prePlugins fwk.postPlugins rf) with
    | (fwk1, some err) => (fwk1, some err)
    | (fwk1, none) => (fwk1, none)
  | .cloudEventFunc fnCloudEvent =>
    let rf := functions.New [.WithFunctionName fwk.funcContext.GetName,
      .WithCloudEvent fnCloudEvent, .WithFunctionPath fwk.funcContext.GetHttpPattern]
    match callRuntime env fwk
        (.RegisterCloudEventFunction ctx (some fwk.funcContext) fwk.prePlugins
          fwk.postPlugins rf) with
    | (fwk1, some err) => (fwk1, some err)
    | (fwk1, none) => (fwk1, none)
  | .other _ => (fwk, some "unrecognized function")

/-- The loop `for _, name := range funcNames` of `TryRegisterFunctions`. -/
def registerAll (env : Env) (ctx : GoContext) :
    List String → functionsFrameworkImpl → functionsFrameworkImpl × Option String
  | [], fwk => (fwk, none)
  | name :: rest, fwk =>
    match fwk.registry.GetRegisteredFunction name with
    | none => registerAll env ctx rest fwk
    | some rf =>
      match env.GetRuntimeContext with
      | .error err => (fwk, some err)
      | .ok c =>
        let fwk1 := { fwk with funcContextMap := fwk.funcContextMap.set rf.GetName c }
        match rf.GetFunctionType with
        | .HTTPType =>
          match callRuntime env fwk1
              (.RegisterHTTPFunction (fwk1.funcContextMap.get rf.GetName) fwk1.prePlugins
                fwk1.postPlugins rf) with
          | (fwk2, some err) => (fwk2, some err)
          | (fwk2, none) => registerAll env ctx rest fwk2
        | .CloudEventType =>
          match callRuntime env fwk1
              (.RegisterCloudEventFunction ctx (fwk1.funcContextMap.get rf.GetName)
                fwk1.prePlugins fwk1.postPlugins rf) with
          | (fwk2, some err) => (fwk2, some err)
          | (fwk2, none) => registerAll env ctx rest fwk2
        | .OpenFunctionType =>
          match callRuntime env fwk1
              (.RegisterOpenFunction (fwk1.funcContextMap.get rf.GetName) fwk1.prePlugins
                fwk1.postPlugins rf) with
          | (fwk2, some err) => (fwk2, some err)
          | (fwk2, none) => registerAll env ctx rest fwk2
        | .other _ => registerAll env ctx rest fwk1

/-- `functionsFrameworkImpl.TryRegisterFunctions`. -/
def TryRegisterFunctions (env : Env) (fwk : functionsFrameworkImpl) (ctx : GoContext) :
    functionsFrameworkImpl × Option String :=
  let target := env.FUNCTION_TARGET
  if target.length > 0 then
    match fwk.registry.GetRegisteredFunction target with
    | some fn =>
      match fn.GetFunctionType with
      | .HTTPType =>
        match Register env fwk ctx (.httpFunc fn.GetHTTPFunction) with
        | (fwk1, some err) => (fwk1, some err)
        | (fwk1, none) => (fwk1, none)
      | .CloudEventType =>
        match Register env fwk ctx (.cloudEventFunc fn.GetCloudEventFunction) with
        | (fwk1, some err) => (fwk1, some err)
        | (fwk1, none) => (fwk1, none)
      | .OpenFunctionType =>
        match Register env fwk ctx (.openFunctionFunc fn.GetOpenFunctionFunction) with
        | (fwk1, some err) => (fwk1, some err)
        | (fwk1, none) => (fwk1, none)
      | .other tag => (fwk, some ("Unkown function type: " ++ tag))
    | none => (fwk, some ("function not found: " ++ target))
  else
    let funcNames := fwk.registry.GetFunctionNames
    if funcNames.length > 1 ∧ fwk.funcContext.GetRuntime = Runtime.Async then
      (fwk, some "only one function is allowed in async runtime")
    else if funcNames.length > 0 then
      registerAll env ctx funcNames fwk
    else
      (fwk, none)

/-- `functionsFrameworkImpl.Start`. -/
def Start (env : Env) (fwk : functionsFrameworkImpl) (ctx : GoContext) :
    functionsFrameworkImpl × Option String :=
  match TryRegisterFunctions env fwk ctx with
  | (fwk1, some err) => (fwk1, some err)
  | (fwk1, none) =>
    match callRuntime env fwk1 (.Start ctx) with
    | (fwk2, some err) => (fwk2, some err)
    | (fwk2, none) => (fwk2, none)

/-- The call the deploy-all loop makes for a registered entry: the registration call of
its trigger kind, with the runtime context just parsed for it, the hook lists of the
framework and the entry itself; none for an entry of no known kind. -/
def deployCall (env : Env) (ctx : GoContext) (prePlugins postPlugins : List Plugin)
    (rf : RegisteredFunction) : Option RuntimeCall :=
  match rf.GetFunctionType with
  | .HTTPType =>
    some (.RegisterHTTPFunction env.GetRuntimeContext.toOption prePlugins postPlugins rf)
  | .CloudEventType =>
    some (.RegisterCloudEventFunction ctx env.GetRuntimeContext.toOption prePlugins
      postPlugins rf)
  | .OpenFunctionType =>
    some (.RegisterOpenFunction env.GetRuntimeContext.toOption prePlugins postPlugins rf)
  | .other _ => none

/-- The framework default plugins named in `RegisterPlugins`: the constants
`plgExample.Name` and `skywalking.Name` and the values returned by `plgExample.New()`
and `skywalking.New()` (both packages lie outside the files embedded here). -/
structure DefaultPlugins where
  plgExampleName : String
  plgExampleNew : Plugin
  skywalkingName : String
  skywalkingNew : Plugin

/-- The loop `for name, plg := range customPlugins`, visiting the bindings in the
order of the list. -/
def registerCustomPlugins (customPlugins : GoMap Plugin) (pluginMap : GoMap Plugin) :
    GoMap Plugin :=
  customPlugins.foldl
    (fun m binding =>
      match m.get binding.1 with
      | none => m.set binding.1 binding.2
      | some _ => m)
    pluginMap

/-- The loops `for _, plgName := range ...` that append the plugins found in the map. -/
def appendResolved (pluginMap : GoMap Plugin) (names : List String) (plugins : List Plugin) :
    List Plugin :=
  names.foldl
    (fun acc plgName =>
      match pluginMap.get plgName with
      | some plg => acc ++ [plg]
      | none => acc)
    plugins

/-- `functionsFrameworkImpl.RegisterPlugins`; `customPlugins` is `none` for a nil map. -/
def RegisterPlugins (d : DefaultPlugins) (fwk : functionsFrameworkImpl)
    (customPlugins : Option (GoMap Plugin)) : functionsFrameworkImpl :=
  let pluginMap0 : GoMap Plugin :=
    (GoMap.set (GoMap.set [] d.plgExampleName d.plgExampleNew) d.skywalkingName d.skywalkingNew)
  let pluginMap1 :=
    match customPlugins with
    | some custom => registerCustomPlugins custom pluginMap0
    | none => pluginMap0
  let prePlugins := appendResolved pluginMap1 fwk.funcContext.GetPrePlugins fwk.prePlugins
  let postPlugins := appendResolved pluginMap1 fwk.funcContext.GetPostPlugins fwk.postPlugins
  { fwk with pluginMap := pluginMap1, prePlugins := prePlugins, postPlugins := postPlugins }

/-- The plugin catalog in the words of the specification: the two built-in plugins,
plus every custom plugin whose name is not a built-in name. -/
def catalogSpec (d : DefaultPlugins) (customPlugins : Option (GoMap Plugin)) (name : String) :
    Option Plugin :=
  if name = d.plgExampleName then some d.plgExampleNew
  else if name = d.skywalkingName then some d.skywalkingNew
  else
    match customPlugins with
    | some custom => custom.get name
    | none => none

/-- Resolution of a hook list in the words of the specification: walk the names in
order and keep, for each name in the catalog, the plugin of the catalog. -/
def resolveSpec (catalog : String → Option Plugin) (names : List String) : List Plugin :=
  names.filterMap catalog


/-! ## Go library semantics used by `knative.go` -/

/-- Go string as the sequence of its characters. -/
abbrev GoString := List Char

/-- `strings.HasSuffix(s, "\n")`. -/
def hasNewlineSuffix (s : GoString) : Bool := s.getLast? == some '\n'

/-- `fmt.tooLarge`: the magnitude is too large for a width or precision. -/
def tooLarge (x : Nat) : Bool := decide (x > 1000000)

/-- The loop of `fmt.parsenum(s, start, end)` on `s[start:end]`: result `(num, isnum,
rest)` where `rest` is what follows position `newi`.  On overflow `newi` is `end`. -/
def parsenumLoop (num : Nat) (isnum : Bool) : GoString → Nat × Bool × GoString
  | [] => (num, isnum, [])
  | c :: cs =>
    if c.isDigit then
      if tooLarge num then (0, false, [])
      else parsenumLoop (num * 10 + (c.toNat - 48)) true cs
    else (num, isnum, c :: cs)

/-- `fmt.parsenum`. -/
def parsenum (s : GoString) : Nat × Bool × GoString := parsenumLoop 0 false s

/-- `fmt.parseArgNumber(format)` for a format that starts with an opening bracket:
result `(index, wid, ok)`. -/
def parseArgNumber (format : GoString) : Int × Nat × Bool :=
  if format.length < 3 then (0, 1, false)
  else
    let inner := (format.drop 1).takeWhile (fun c => c != ']')
    if inner.length < (format.drop 1).length then
      match parsenum inner with
      | (width, ok, rest) =>
        if !ok || !rest.isEmpty then (0, inner.length + 2, false)
        else ((width : Int) - 1, inner.length + 2, true)
    else (0, 1, false)

/-- `(*pp).argNumber(argNum, format, i, numArgs)` with `numArgs = 0`, on `format[i:]`:
result `(rest, found, goodArgNum)`, the last being `false` when the call clears
`p.goodArgNum`.  With no operand no index is in range. -/
def argNumber (s : GoString) : GoString × Bool × Bool :=
  match s with
  | '[' :: _ =>
    match parseArgNumber s with
    | (_, wid, ok) => (s.drop wid, ok, false)
  | _ => (s, false, true)

/-- The flag characters of the `simpleFormat` loop of `doPrintf`. -/
def isFlag (c : Char) : Bool := c == '#' || c == '0' || c == '+' || c == '-' || c == ' '

def badWidthString : GoString := "%!(BADWIDTH)".toList
def badPrecString : GoString := "%!(BADPREC)".toList
def noVerbString : GoString := "%!(NOVERB)".toList

/-- `(*pp).badArgNum(verb)`. -/
def badArgNum (verb : Char) : GoString := "%!".toList ++ [verb] ++ "(BADINDEX)".toList

/-- `(*pp).missingArg(verb)`. -/
def missingArg (verb : Char) : GoString := "%!".toList ++ [verb] ++ "(MISSING)".toList

/-- The width step of the loop body of `doPrintf` with no operand, on `format[i:]`:
result `(rest, text written, afterIndex, goodArgNum)`.  A `*` finds no operand and
writes `%!(BADWIDTH)`; otherwise `parsenum` reads the width. -/
def widthStep (s : GoString) (afterIndex good : Bool) : GoString × GoString × Bool × Bool :=
  match s with
  | '*' :: t => (t, badWidthString, false, good)
  | _ =>
    match parsenum s with
    | (_, widPresent, t) => (t, [], afterIndex, good && !(afterIndex && widPresent))

/-- The precision step of the loop body of `doPrintf` with no operand, on `format[i:]`:
result `(rest, text written, afterIndex, goodArgNum)`.  It applies when a `.` follows. -/
def precisionStep (s : GoString) (afterIndex good : Bool) :
    GoString × GoString × Bool × Bool :=
  match s with
  | '.' :: t =>
    match argNumber t with
    | (t1, afterIndexP, goodP) =>
      match t1 with
      | '*' :: t2 => (t2, badPrecString, false, good && !afterIndex && goodP)
      | _ =>
        match parsenum t1 with
        | (_, _, t2) => (t2, [], afterIndexP, good && !afterIndex && goodP)
  | _ => (s, [], afterIndex, good)

/-- The step `if !afterIndex { argNum, i, afterIndex = p.argNumber(...) }` of the loop
body of `doPrintf`: result `(rest, goodArgNum)`. -/
def indexStep (s : GoString) (afterIndex good : Bool) : GoString × Bool :=
  if afterIndex then (s, good)
  else
    match argNumber s with
    | (t, _, g) => (t, good && g)

/-- One pass of the body of the loop of `(*pp).doPrintf` after a `%`, with an empty
operand list: flags, argument index, width, precision, argument index, up to the verb.
Result: the text written before the verb is handled (`%!(BADWIDTH)`, `%!(BADPREC)`), and
either nothing when the format ends before a verb, or the verb, `p.goodArgNum` and the
format that follows the verb. -/
def parseDirective (afterPercent : GoString) : GoString × Option (Char × Bool × GoString) :=
  let s1 := afterPercent.dropWhile isFlag
  let a := argNumber s1
  let wd := widthStep a.1 a.2.1 a.2.2
  let pr := precisionStep wd.1 wd.2.2.1 wd.2.2.2
  let ix := indexStep pr.1 pr.2.2.1 pr.2.2.2
  match ix.1 with
  | [] => (wd.2.1 ++ pr.2.1, none)
  | verb :: rest => (wd.2.1 ++ pr.2.1, some (verb, ix.2, rest))

/-- The final switch of the loop body of `doPrintf` when no operand is left: what is
written for the verb. -/
def verbText (verb : Char) (goodArgNum : Bool) : GoString :=
  if verb = '%' then ['%']
  else if !goodArgNum then badArgNum verb
  else missingArg verb

/-- `(*pp).doPrintf(format, a)` of the Go library with an empty operand list `a`, which
is what `fmt.Fprintf(w, msg)` runs: the text it writes.  One unit of fuel is spent per
`%` directive. -/
def doPrintfLoop : Nat → GoString → GoString
  | 0, _ => []
  | fuel + 1, format =>
    let lit := format.takeWhile (fun c => c != '%')
    match format.dropWhile (fun c => c != '%') with
    | [] => lit
    | _ :: afterPercent =>
      match parseDirective afterPercent with
      | (out, none) => lit ++ out ++ noVerbString
      | (out, some (verb, good, rest)) =>
        lit ++ out ++ verbText verb good ++ doPrintfLoop fuel rest

/-- Text written by `fmt.Fprintf(w, format)` with no operand. -/
def Fprintf0 (format : GoString) : GoString := doPrintfLoop (format.length + 1) format

/-! ## `knative.go`: the response writer and the panic guard -/

def functionStatusHeader : String := "X-OpenFunction-Status"
def crashStatus : String := "crash"
def errorStatus : String := "error"
def successStatus : String := "success"
def defaultPattern : String := "/"

/-- `http.StatusInternalServerError`. -/
def StatusInternalServerError : Int := 500

/-- Modelled from the spec: the constant `ofctx.Success` (package `context` lies outside
the files embedded here); section 4.3 gives status 200 for `Success`. -/
def Success : Int := 200

/-- A call received by the `http.ResponseWriter` of one request.  `Fprintf` is the write
made by `fmt.Fprintf(w, ...)`, with the text written. -/
inductive ResponseCall where
  | HeaderSet (key value : String)
  | WriteHeader (statusCode : Int)
  | Write (data : List UInt8)
  | Fprintf (text : GoString)
deriving DecidableEq, Repr

/-- The response writer of one request: the calls received so far, oldest first. -/
abbrev ResponseWriter := List ResponseCall

/-- `writeHTTPErrorResponse`.  The copy of the message sent to `os.Stderr` is not part
of the response. -/
def writeHTTPErrorResponse (w : ResponseWriter) (statusCode : Int) (status : String)
    (msg : GoString) : ResponseWriter :=
  let msg := if !hasNewlineSuffix msg then msg ++ ['\n'] else msg
  w ++ [.HeaderSet functionStatusHeader status, .WriteHeader statusCode,
    .Fprintf (Fprintf0 msg)]

/-- A value recovered from a panic, by the text the verb `%v` prints for it. -/
structure PanicValue where
  text : GoString
deriving DecidableEq, Repr

/-- `RecoverPanicHTTP`, given the result `r` of `recover()` (`none` is nil) and the text
`debug.Stack()` returns. -/
def RecoverPanicHTTP (w : ResponseWriter) (msg : GoString) (r : Option PanicValue)
    (stack : GoString) : ResponseWriter :=
  match r with
  | some v =>
    writeHTTPErrorResponse w StatusInternalServerError crashStatus
      (msg ++ ": ".toList ++ v.text ++ "\n\n".toList ++ stack)
  | none => w

/-- The `FuncOut` left on the runtime manager: `GetCode()` and `GetData()`. -/
structure Out where
  code : Int
  data : List UInt8
deriving DecidableEq, Repr

def Out.GetCode (o : Out) : Int := o.code
def Out.GetData (o : Out) : List UInt8 := o.data

/-- How `rm.FunctionRunWrapperWithHooks(...)` ended (package `runtime` lies outside the
files embedded here; the adapters only depend on this outcome): it returned, leaving
`FuncOut` on the runtime manager, or it panicked with a value, `stack` being what
`debug.Stack()` then returns.  In both cases `w` is the response writer as the run left
it. -/
inductive RunResult where
  | returned (w : ResponseWriter) (out : Out)
  | panicked (w : ResponseWriter) (r : PanicValue) (stack : GoString)
deriving DecidableEq, Repr

/-- The message `RecoverPanicHTTP` builds with `fmt.Sprintf("%s: %v\n\n%s", ...)`, after
`writeHTTPErrorResponse` has made it end with a newline. -/
def crashMessage (msg : GoString) (r : PanicValue) (stack : GoString) : GoString :=
  let m := msg ++ ": ".toList ++ r.text ++ "\n\n".toList ++ stack
  if !hasNewlineSuffix m then m ++ ['\n'] else m

/-- How a Go function call ends. -/
inductive Completion where
  | returns
  | panics (r : PanicValue)
deriving DecidableEq, Repr

/-- Go semantics of `defer RecoverPanicHTTP(w, msg)`: the deferred call runs when the
function body has returned or panicked.  When the body panicked, `recover()` called by
the deferred function returns the panic value, which is never nil, and stops the
panic, so the function returns; otherwise `recover()` returns nil. -/
def deferRecoverPanicHTTP (msg : GoString) (body : ResponseWriter × Completion)
    (stack : GoString) : ResponseWriter × Completion :=
  match body with
  | (w, .returns) => (RecoverPanicHTTP w msg none stack, .returns)
  | (w, .panics r) => (RecoverPanicHTTP w msg (some r) stack, .returns)

/-- The stack text of a run, empty when it did not panic (it is then not read). -/
def RunResult.stack : RunResult → GoString
  | .returned _ _ => []
  | .panicked _ _ stack => stack

/-- Body of the closure `fn` of `Runtime.RegisterOpenFunction` after the deferred call
is set up: the run, then the switch on `rm.FuncOut.GetCode()`.  `InternalError` is the
constant `ofctx.InternalError`. -/
def openFunctionBody (InternalError : Int) (run : RunResult) : ResponseWriter × Completion :=
  match run with
  | .panicked w r _ => (w, .panics r)
  | .returned w out =>
    if out.GetCode = Success then
      (w ++ [.HeaderSet functionStatusHeader successStatus, .WriteHeader out.GetCode,
        .Write out.GetData], .returns)
    else if out.GetCode = InternalError then
      (w ++ [.HeaderSet functionStatusHeader errorStatus, .WriteHeader out.GetCode], .returns)
    else (w, .returns)

/-- The closure `fn` built by `Runtime.RegisterOpenFunction`, for one request. -/
def openFunctionAdapter (InternalError : Int) (run : RunResult) : ResponseWriter × Completion :=
  deferRecoverPanicHTTP "Function panic".toList (openFunctionBody InternalError run) run.stack

/-- Body of the closure `fn` of `Runtime.RegisterHTTPFunction` after the deferred call
is set up: the run only. -/
def httpFunctionBody (run : RunResult) : ResponseWriter × Completion :=
  match run with
  | .panicked w r _ => (w, .panics r)
  | .returned w _ => (w, .returns)

/-- The closure `fn` built by `Runtime.RegisterHTTPFunction`, for one request. -/
def httpFunctionAdapter (run : RunResult) : ResponseWriter × Completion :=
  deferRecoverPanicHTTP "Function panic".toList (httpFunctionBody run) run.stack

/-! ## `knative.go`: routes -/

/-- The closure handed to the router, by the function that built it and the values it
captured. -/
inductive HandlerFunc where
  | openFunction (ctx : RuntimeContext) (prePlugins postPlugins : List Plugin)
      (rf : RegisteredFunction)
  | httpFunction (ctx : RuntimeContext) (prePlugins postPlugins : List Plugin)
      (rf : RegisteredFunction)
deriving DecidableEq, Repr

/-- A route added to the chi router `r.handler`, by the call that added it. -/
inductive RouterCall where
  | MethodFunc (method pattern : String) (fn : HandlerFunc)
  | HandleFunc (pattern : String) (fn : HandlerFunc)
deriving DecidableEq, Repr

/-- The HTTP verb a route is restricted to; `none` for a method-agnostic route. -/
def RouterCall.method : RouterCall → Option String
  | .MethodFunc method _ _ => some method
  | .HandleFunc _ _ => none

/-- What the chi library (a dependency, outside the repository) decides for the router:
`ToUpper` is `strings.ToUpper`; `methodMap` lists the verbs of chi's `methodMap`;
`insertRoute pattern` tells whether `tree.InsertRoute` returns for the pattern (it
panics on a malformed one); `handleBlank pattern` tells whether `HandleFunc` returns
for a pattern that contains a blank, which depends on the chi release. -/
structure Chi where
  ToUpper : String → String
  methodMap : List String
  insertRoute : String → Bool
  handleBlank : String → Bool

/-- The chi router: the routes added so far, oldest first. -/
abbrev Mux := List RouterCall

/-- Whether `(*Mux).handle` accepts the pattern: it panics when the pattern is empty or
does not begin with `/`, and otherwise inserts the route in the tree. -/
def Chi.handleAccepts (chi : Chi) (pattern : String) : Bool :=
  if pattern.data.head? = some '/' then chi.insertRoute pattern else false

/-- Whether `(*Mux).MethodFunc` (that is `(*Mux).Method`) returns: it panics when
`strings.ToUpper(method)` is not a key of `methodMap`, and otherwise calls `handle`. -/
def Chi.methodFuncAccepts (chi : Chi) (method pattern : String) : Bool :=
  if chi.ToUpper method ∈ chi.methodMap then chi.handleAccepts pattern else false

/-- Whether `(*Mux).HandleFunc` returns: `handle` decides for a pattern without blank. -/
def Chi.handleFuncAccepts (chi : Chi) (pattern : String) : Bool :=
  if pattern.data.any (fun c => c == ' ' || c == '\t') then chi.handleBlank pattern
  else chi.handleAccepts pattern

/-- `(*Mux).MethodFunc(method, pattern, fn)`: the router with the route added, or `none`
when the call panics. -/
def Mux.MethodFunc (chi : Chi) (mx : Mux) (method pattern : String) (fn : HandlerFunc) :
    Option Mux :=
  if chi.methodFuncAccepts method pattern then some (mx ++ [.MethodFunc method pattern fn])
  else none

/-- `(*Mux).HandleFunc(pattern, fn)`: the router with the route added, or `none` when the
call panics. -/
def Mux.HandleFunc (chi : Chi) (mx : Mux) (pattern : String) (fn : HandlerFunc) :
    Option Mux :=
  if chi.handleFuncAccepts pattern then some (mx ++ [.HandleFunc pattern fn])
  else none

/-- Dispatch of chi for a route added by `MethodFunc(method, ...)`: `Mux.routeHTTP`
looks the verb of the request up in `methodMap` and `tree.FindRoute` returns only an
endpoint stored for that verb, which for this route is `strings.ToUpper(method)`.
Whether the route can serve a request with the verb, its path left aside. -/
def methodRouteServes (chi : Chi) (method verb : String) : Bool :=
  decide (verb ∈ chi.methodMap) && decide (chi.ToUpper method = verb)

/-- How a call of `RegisterOpenFunction` or `RegisterHTTPFunction` of the knative runtime
ends: it returns its error result, or a panic raised by the router leaves it. -/
inductive RegistrationEnd where
  | returns (err : Option String)
  | panics
deriving DecidableEq, Repr

/-- The knative `Runtime`; `handler` is its router, and `daprClientInits` counts the
calls of `ctx.InitDaprClientIfNil()`. -/
structure knative.Runtime where
  port : String
  pattern : String
  handler : Mux
  daprClientInits : Nat
deriving DecidableEq, Repr

/-- `NewKnativeRuntime`. -/
def NewKnativeRuntime (port : String) (pattern : String) : knative.Runtime :=
  let pattern := if pattern = "" then defaultPattern else pattern
  { port := port, pattern := pattern, handler := [], daprClientInits := 0 }

/-- The loop `for _, method := range methods { r.handler.MethodFunc(...) }`: the router
it leaves and whether it finished; a panicking call ends it. -/
def registerMethodRoutes (chi : Chi) (pattern : String) (fn : HandlerFunc) :
    List String → Mux → Mux × Bool
  | [], mx => (mx, true)
  | method :: rest, mx =>
    match Mux.MethodFunc chi mx method pattern fn with
    | none => (mx, false)
    | some mx1 => registerMethodRoutes chi pattern fn rest mx1

/-- The route registration shared by both adapters: one `MethodFunc` per method when
methods are given, one `HandleFunc` otherwise.  Result: the router it leaves and
whether it finished without panic. -/
def registerRoutes (chi : Chi) (handler : Mux) (rf : RegisteredFunction) (fn : HandlerFunc) :
    Mux × Bool :=
  let methods := rf.GetFunctionMethods
  if methods.length > 0 then
    registerMethodRoutes chi rf.GetPath fn methods handler
  else
    match Mux.HandleFunc chi handler rf.GetPath fn with
    | none => (handler, false)
    | some mx1 => (mx1, true)

/-- `Runtime.RegisterOpenFunction` of the knative runtime. -/
def knative.Runtime.RegisterOpenFunction (chi : Chi) (r : knative.Runtime)
    (ctx : RuntimeContext) (prePlugins postPlugins : List Plugin) (rf : RegisteredFunction) :
    knative.Runtime × RegistrationEnd :=
  let inits := if ctx.HasInputs || ctx.HasOutputs then r.daprClientInits + 1
    else r.daprClientInits
  let fn := HandlerFunc.openFunction ctx prePlugins postPlugins rf
  match registerRoutes chi r.handler rf fn with
  | (mx, true) => ({ r with handler := mx, daprClientInits := inits }, .returns none)
  | (mx, false) => ({ r with handler := mx, daprClientInits := inits }, .panics)

/-- `Runtime.RegisterHTTPFunction` of the knative runtime. -/
def knative.Runtime.RegisterHTTPFunction (chi : Chi) (r : knative.Runtime)
    (ctx : RuntimeContext) (prePlugins postPlugins : List Plugin) (rf : RegisteredFunction) :
    knative.Runtime × RegistrationEnd :=
  let fn := HandlerFunc.httpFunction ctx prePlugins postPlugins rf
  match registerRoutes chi r.handler rf fn with
  | (mx, true) => ({ r with handler := mx }, .returns none)
  | (mx, false) => ({ r with handler := mx }, .panics)

/-- The listed methods whose route is added: those before the first one the router
rejects at the path of the function. -/
def acceptedMethods (chi : Chi) (rf : RegisteredFunction) : List String :=
  rf.GetFunctionMethods.takeWhile (fun m => chi.methodFuncAccepts m rf.GetPath)

/-- Whether the router accepts every route of the function: each listed method at its
path, or the method-agnostic route when no method is listed. -/
def routesAccepted (chi : Chi) (rf : RegisteredFunction) : Bool :=
  if rf.GetFunctionMethods.length > 0 then
    rf.GetFunctionMethods.all (fun m => chi.methodFuncAccepts m rf.GetPath)
  else chi.handleFuncAccepts rf.GetPath

/-- `strings.ToUpper` on ASCII text. -/
def asciiUpper (s : String) : String := String.mk (s.data.map Char.toUpper)

/-- The chi router as shipped: the nine verbs of its `methodMap`, a tree and a
`HandleFunc` that take every pattern. -/
def sampleChi : Chi :=
  ⟨asciiUpper, ["CONNECT", "DELETE", "GET", "HEAD", "OPTIONS", "PATCH", "POST", "PUT", "TRACE"],
    fun _ => true, fun _ => true⟩

/-- An HTTP entry whose second method is no HTTP verb of the router. -/
def sampleFoo : RegisteredFunction :=
  ⟨"F", "/a", ["GET", "FOO", "POST"], .HTTPType, some ⟨3⟩, none, none⟩

/-- An HTTP entry whose method is written in lower case. -/
def sampleLower : RegisteredFunction :=
  ⟨"L", "/a", ["get"], .HTTPType, some ⟨4⟩, none, none⟩

/-- An HTTP entry with two supported methods, one in lower case. -/
def sampleTwo : RegisteredFunction :=
  ⟨"T", "/a", ["GET", "post"], .HTTPType, some ⟨5⟩, none, none⟩

/-! ## Sample values -/

/-- A runtime context of the given kind, without plugins, inputs or outputs. -/
def sampleContext (rt : Runtime) : RuntimeContext :=
  ⟨"f", rt, "8080", "/", [], [], false, false⟩

/-- An environment with the given target, whose runtime accepts every call. -/
def sampleEnv (target : String) (rt : Runtime) : Env :=
  ⟨target, .ok (sampleContext rt), fun _ _ => none⟩

/-- An HTTP entry `A` restricted to `GET`. -/
def sampleA : RegisteredFunction := ⟨"A", "/a", ["GET"], .HTTPType, some ⟨1⟩, none, none⟩

/-- An HTTP entry `A` with the handler of `sampleA` but another path and other methods. -/
def sampleA2 : RegisteredFunction :=
  ⟨"A", "/other/{id}", ["POST", "PUT"], .HTTPType, some ⟨1⟩, none, none⟩

/-- A CloudEvent entry `B`. -/
def sampleB : RegisteredFunction := ⟨"B", "/b", [], .CloudEventType, none, some ⟨2⟩, none⟩

/-- A framework of the given runtime kind over the given registry content, before any
plugin or function was registered. -/
def sampleFramework (rt : Runtime) (fns : List RegisteredFunction) : functionsFrameworkImpl :=
  ⟨sampleContext rt, [], [], [], [], [], ⟨fns⟩⟩

/-- Default plugins under their upstream names. -/
def sampleDefaults : DefaultPlugins := ⟨"plugin-example", ⟨1⟩, "skywalking", ⟨2⟩⟩

/-- A framework whose context names pre and post plugins. -/
def samplePluginFramework : functionsFrameworkImpl :=
  ⟨⟨"f", .Knative, "8080", "/", ["skywalking", "missing", "mine", "skywalking"],
    ["mine", "plugin-example"], false, false⟩, [], [], [], [], [], ⟨[]⟩⟩

/-- Custom plugins, one of them under a built-in name. -/
def sampleCustom : Option (GoMap Plugin) := some [("skywalking", ⟨7⟩), ("mine", ⟨8⟩)]

/-! ## Auxiliary facts -/

theorem String_length_pos_of_ne_empty (s : String) (h : s ≠ "") : s.length > 0 := by
  rcases s with ⟨l⟩
  cases l with
  | nil => exact absurd rfl h
  | cons c cs => simp [String.length]

theorem GoMap.get_set_self {V : Type} (m : GoMap V) (k : String) (v : V) :
    (GoMap.set m k v).get k = some v := by
  induction m with
  | nil => simp [GoMap.set, GoMap.get]
  | cons b rest ih =>
    obtain ⟨k1, v1⟩ := b
    by_cases hk : k1 = k
    · simp [GoMap.set, GoMap.get, hk]
    · simp [GoMap.set, GoMap.get, hk, ih]

theorem GoMap.get_set_other {V : Type} (m : GoMap V) (k k2 : String) (v : V) (h : k ≠ k2) :
    (GoMap.set m k v).get k2 = m.get k2 := by
  induction m with
  | nil => simp [GoMap.set, GoMap.get, h]
  | cons b rest ih =>
    obtain ⟨k1, v1⟩ := b
    by_cases hk : k1 = k
    · subst hk
      simp [GoMap.set, GoMap.get, h]
    · by_cases hk2 : k1 = k2
      · subst hk2
        simp [GoMap.set, GoMap.get, hk]
      · simp [GoMap.set, GoMap.get, hk, hk2, ih]

theorem Registry.lookup_none_of_not_mem (r : Registry) (name : String)
    (h : name ∉ r.GetFunctionNames) : r.GetRegisteredFunction name = none := by
  unfold Registry.GetRegisteredFunction
  rw [List.find?_eq_none]
  intro rf hrf
  simp only [decide_eq_true_eq]
  intro heq
  apply h
  unfold Registry.GetFunctionNames
  exact List.mem_map.mpr ⟨rf, hrf, heq⟩

theorem Register_httpFunc (env : Env) (fwk : functionsFrameworkImpl) (ctx : GoContext)
    (f : Option FuncRef) :
    Register env fwk ctx (.httpFunc f) =
      callRuntime env fwk (.RegisterHTTPFunction (some fwk.funcContext) fwk.prePlugins
        fwk.postPlugins (functions.New [.WithFunctionName fwk.funcContext.GetName, .WithHTTP f,
          .WithFunctionPath fwk.funcContext.GetHttpPattern])) := by
  simp only [Register, callRuntime]
  split <;> simp_all

theorem Register_openFunctionFunc (env : Env) (fwk : functionsFrameworkImpl) (ctx : GoContext)
    (f : Option FuncRef) :
    Register env fwk ctx (.openFunctionFunc f) =
      callRuntime env fwk (.RegisterOpenFunction (some fwk.funcContext) fwk.prePlugins
        fwk.postPlugins (functions.New [.WithFunctionName fwk.funcContext.GetName,
          .WithOpenFunction f, .WithFunctionPath fwk.funcContext.GetHttpPattern])) := by
  simp only [Register, callRuntime]
  split <;> simp_all

theorem Register_cloudEventFunc (env : Env) (fwk : functionsFrameworkImpl) (ctx : GoContext)
    (f : Option FuncRef) :
    Register env fwk ctx (.cloudEventFunc f) =
      callRuntime env fwk (.RegisterCloudEventFunction ctx (some fwk.funcContext) fwk.prePlugins
        fwk.postPlugins (functions.New [.WithFunctionName fwk.funcContext.GetName,
          .WithCloudEvent f, .WithFunctionPath fwk.funcContext.GetHttpPattern])) := by
  simp only [Register, callRuntime]
  split <;> simp_all

/-- In explicit-target mode with a registered target, the result is that of `Register`
on the getter of the target for its kind. -/
theorem TryRegisterFunctions_target (env : Env) (fwk : functionsFrameworkImpl)
    (ctx : GoContext) (fn : RegisteredFunction) (ht : env.FUNCTION_TARGET ≠ "")
    (hf : fwk.registry.GetRegisteredFunction env.FUNCTION_TARGET = some fn) :
    TryRegisterFunctions env fwk ctx =
      match fn.GetFunctionType with
      | .HTTPType => Register env fwk ctx (.httpFunc fn.GetHTTPFunction)
      | .CloudEventType => Register env fwk ctx (.cloudEventFunc fn.GetCloudEventFunction)
      | .OpenFunctionType => Register env fwk ctx (.openFunctionFunc fn.GetOpenFunctionFunction)
      | .other tag => (fwk, some ("Unkown function type: " ++ tag)) := by
  have hlen := String_length_pos_of_ne_empty _ ht
  simp only [TryRegisterFunctions, hlen, if_true, hf]
  cases fn.GetFunctionType <;> simp only <;> split <;> simp_all

/-! ## Start and target resolution -/

/-- C3: with an empty `FUNCTION_TARGET`, an Async runtime kind and more than one
registered name, `TryRegisterFunctions` returns the error "only one function is allowed
in async runtime" and leaves the framework, hence the calls received by its runtime,
as they were; `Start` returns the same error and the runtime receives no call, `Start`
included. -/
theorem TryRegisterFunctions_async_many (env : Env) (fwk : functionsFrameworkImpl)
    (ctx : GoContext) (ht : env.FUNCTION_TARGET = "")
    (hk : fwk.funcContext.GetRuntime = Runtime.Async)
    (hn : fwk.registry.GetFunctionNames.length > 1) :
    TryRegisterFunctions env fwk ctx
        = (fwk, some "only one function is allowed in async runtime")
      ∧ (TryRegisterFunctions env fwk ctx).1.runtime = fwk.runtime
      ∧ (Start env fwk ctx).2 = some "only one function is allowed in async runtime"
      ∧ (Start env fwk ctx).1.runtime = fwk.runtime := by
  have h : TryRegisterFunctions env fwk ctx
      = (fwk, some "only one function is allowed in async runtime") := by
    simp [TryRegisterFunctions, ht, hk, hn]
  simp [Start, h]

theorem TryRegisterFunctions_async_many_witness :
    (TryRegisterFunctions (sampleEnv "" .Async) (sampleFramework .Async [sampleA, sampleB])
        ⟨0⟩).2 = some "only one function is allowed in async runtime"
      ∧ (Start (sampleEnv "" .Async) (sampleFramework .Async [sampleA, sampleB])
        ⟨0⟩).1.runtime = [] := by
  have h := TryRegisterFunctions_async_many (sampleEnv "" .Async)
    (sampleFramework .Async [sampleA, sampleB]) ⟨0⟩ rfl rfl (by decide)
  exact ⟨by rw [h.1], h.2.2.2⟩

/-- C4: with a non-empty `FUNCTION_TARGET` that is not a registered name,
`TryRegisterFunctions` returns the error "function not found: " followed by the target
and leaves the framework, hence the calls received by its runtime, as they were;
`Start` returns the same error and the runtime receives no call.  The runtime kind and
the content of the registry are arbitrary. -/
theorem TryRegisterFunctions_target_not_found (env : Env) (fwk : functionsFrameworkImpl)
    (ctx : GoContext) (ht : env.FUNCTION_TARGET ≠ "")
    (hmiss : env.FUNCTION_TARGET ∉ fwk.registry.GetFunctionNames) :
    TryRegisterFunctions env fwk ctx
        = (fwk, some ("function not found: " ++ env.FUNCTION_TARGET))
      ∧ (TryRegisterFunctions env fwk ctx).1.runtime = fwk.runtime
      ∧ (Start env fwk ctx).2 = some ("function not found: " ++ env.FUNCTION_TARGET)
      ∧ (Start env fwk ctx).1.runtime = fwk.runtime := by
  have hlen := String_length_pos_of_ne_empty _ ht
  have hnone := Registry.lookup_none_of_not_mem _ _ hmiss
  have h : TryRegisterFunctions env fwk ctx
      = (fwk, some ("function not found: " ++ env.FUNCTION_TARGET)) := by
    simp [TryRegisterFunctions, hlen, hnone]
  simp [Start, h]

theorem TryRegisterFunctions_target_not_found_witness :
    (TryRegisterFunctions (sampleEnv "zz" .Knative) (sampleFramework .Knative [sampleA])
        ⟨0⟩).2 = some "function not found: zz"
      ∧ (Start (sampleEnv "zz" .Knative) (sampleFramework .Knative [sampleA])
        ⟨0⟩).1.runtime = [] := by
  have h := TryRegisterFunctions_target_not_found (sampleEnv "zz" .Knative)
    (sampleFramework .Knative [sampleA]) ⟨0⟩ (by decide) (by decide)
  exact ⟨by rw [h.1]; rfl, h.2.2.2⟩

/-! ## Explicit target -/

/-- C5: with a non-empty `FUNCTION_TARGET` naming a registered entry of kind HTTP,
CloudEvent or OpenFunction, `TryRegisterFunctions` (successful or not) adds exactly one
call to those the runtime received; it is the registration call for the trigger kind of
the target entry and the function it carries has that kind and the handler of the
target entry, so no call carries another entry. -/
theorem TryRegisterFunctions_target_single_call (env : Env) (fwk : functionsFrameworkImpl)
    (ctx : GoContext) (fn : RegisteredFunction) (ht : env.FUNCTION_TARGET ≠ "")
    (hf : fwk.registry.GetRegisteredFunction env.FUNCTION_TARGET = some fn)
    (hkind : fn.GetFunctionType.isKnown = true) :
    ∃ c rf, (TryRegisterFunctions env fwk ctx).1.runtime = fwk.runtime ++ [c]
      ∧ c.isRegistration = true
      ∧ c.kind = some fn.GetFunctionType
      ∧ c.registered = some rf
      ∧ rf.GetFunctionType = fn.GetFunctionType
      ∧ rf.handler = fn.handler := by
  rw [TryRegisterFunctions_target env fwk ctx fn ht hf]
  cases hty : fn.GetFunctionType with
  | HTTPType =>
    simp only [Register_httpFunc, callRuntime]
    refine ⟨_, _, rfl, rfl, rfl, rfl, rfl, ?_⟩
    simp only [RegisteredFunction.GetFunctionType] at hty
    simp [RegisteredFunction.handler, functions.New, FunctionOption.apply, hty,
      RegisteredFunction.GetHTTPFunction]
  | CloudEventType =>
    simp only [Register_cloudEventFunc, callRuntime]
    refine ⟨_, _, rfl, rfl, rfl, rfl, rfl, ?_⟩
    simp only [RegisteredFunction.GetFunctionType] at hty
    simp [RegisteredFunction.handler, functions.New, FunctionOption.apply, hty,
      RegisteredFunction.GetCloudEventFunction]
  | OpenFunctionType =>
    simp only [Register_openFunctionFunc, callRuntime]
    refine ⟨_, _, rfl, rfl, rfl, rfl, rfl, ?_⟩
    simp only [RegisteredFunction.GetFunctionType] at hty
    simp [RegisteredFunction.handler, functions.New, FunctionOption.apply, hty,
      RegisteredFunction.GetOpenFunctionFunction]
  | other tag =>
    rw [hty] at hkind
    simp [FunctionType.isKnown] at hkind

theorem TryRegisterFunctions_target_single_call_witness :
    ∃ call rf,
      (TryRegisterFunctions (sampleEnv "A" .Knative)
          (sampleFramework .Knative [sampleA, sampleB]) ⟨0⟩).1.runtime
        = (sampleFramework .Knative [sampleA, sampleB]).runtime ++ [call]
      ∧ call.isRegistration = true
      ∧ call.kind = some sampleA.GetFunctionType
      ∧ call.registered = some rf
      ∧ rf.GetFunctionType = sampleA.GetFunctionType
      ∧ rf.handler = sampleA.handler :=
  TryRegisterFunctions_target_single_call (sampleEnv "A" .Knative)
    (sampleFramework .Knative [sampleA, sampleB]) ⟨0⟩ sampleA (by decide) (by decide)
    (by decide)

/-- C10: in explicit-target mode the registration call does not depend on the name,
path or methods of the target entry.  Two registries whose target entries have the
same trigger kind and the same handler for that kind lead, from otherwise equal
frameworks, to the same calls on the runtime and the same result; and for a target of
one of the three kinds the function carried by the call has the name `GetName()` and
the path `GetHttpPattern()` of the runtime context, and the handler of the entry. -/
theorem TryRegisterFunctions_target_entry_independent (env : Env)
    (fwk : functionsFrameworkImpl) (registry2 : Registry) (ctx : GoContext)
    (fn1 fn2 : RegisteredFunction) (ht : env.FUNCTION_TARGET ≠ "")
    (hf1 : fwk.registry.GetRegisteredFunction env.FUNCTION_TARGET = some fn1)
    (hf2 : registry2.GetRegisteredFunction env.FUNCTION_TARGET = some fn2)
    (htype : fn1.GetFunctionType = fn2.GetFunctionType)
    (hhandler : fn1.handler = fn2.handler) :
    (TryRegisterFunctions env fwk ctx).1.runtime
        = (TryRegisterFunctions env { fwk with registry := registry2 } ctx).1.runtime
      ∧ (TryRegisterFunctions env fwk ctx).2
        = (TryRegisterFunctions env { fwk with registry := registry2 } ctx).2
      ∧ (fn1.GetFunctionType.isKnown = true →
          ∃ c rf, (TryRegisterFunctions env fwk ctx).1.runtime = fwk.runtime ++ [c]
            ∧ c.registered = some rf
            ∧ rf.GetName = fwk.funcContext.GetName
            ∧ rf.GetPath = fwk.funcContext.GetHttpPattern
            ∧ rf.handler = fn1.handler) := by
  rw [TryRegisterFunctions_target env fwk ctx fn1 ht hf1,
    TryRegisterFunctions_target env { fwk with registry := registry2 } ctx fn2 ht hf2]
  simp only [RegisteredFunction.GetFunctionType, RegisteredFunction.handler] at htype hhandler
  rw [← htype] at hhandler
  cases hty : fn1.functionType with
  | HTTPType =>
    simp only [hty] at htype hhandler
    simp only [RegisteredFunction.GetFunctionType, hty, ← htype, Register_httpFunc, callRuntime,
      RegisteredFunction.GetHTTPFunction, ← hhandler]
    refine ⟨trivial, trivial, fun _ => ⟨_, _, rfl, rfl, ?_, ?_, ?_⟩⟩ <;>
      simp [RegisteredFunction.handler, functions.New, FunctionOption.apply, hty,
        RegisteredFunction.GetName, RegisteredFunction.GetPath]
  | CloudEventType =>
    simp only [hty] at htype hhandler
    simp only [RegisteredFunction.GetFunctionType, hty, ← htype, Register_cloudEventFunc,
      callRuntime, RegisteredFunction.GetCloudEventFunction, ← hhandler]
    refine ⟨trivial, trivial, fun _ => ⟨_, _, rfl, rfl, ?_, ?_, ?_⟩⟩ <;>
      simp [RegisteredFunction.handler, functions.New, FunctionOption.apply, hty,
        RegisteredFunction.GetName, RegisteredFunction.GetPath]
  | OpenFunctionType =>
    simp only [hty] at htype hhandler
    simp only [RegisteredFunction.GetFunctionType, hty, ← htype, Register_openFunctionFunc,
      callRuntime, RegisteredFunction.GetOpenFunctionFunction, ← hhandler]
    refine ⟨trivial, trivial, fun _ => ⟨_, _, rfl, rfl, ?_, ?_, ?_⟩⟩ <;>
      simp [RegisteredFunction.handler, functions.New, FunctionOption.apply, hty,
        RegisteredFunction.GetName, RegisteredFunction.GetPath]
  | other tag =>
    rw [hty] at htype
    simp only [RegisteredFunction.GetFunctionType, hty, ← htype]
    refine ⟨trivial, trivial, fun h => ?_⟩
    simp [hty, FunctionType.isKnown] at h

theorem TryRegisterFunctions_target_entry_independent_witness :
    (TryRegisterFunctions (sampleEnv "A" .Knative) (sampleFramework .Knative [sampleA])
        ⟨0⟩).1.runtime
      = (TryRegisterFunctions (sampleEnv "A" .Knative)
          { sampleFramework .Knative [sampleA] with registry := ⟨[sampleA2]⟩ } ⟨0⟩).1.runtime :=
  (TryRegisterFunctions_target_entry_independent (sampleEnv "A" .Knative)
    (sampleFramework .Knative [sampleA]) ⟨[sampleA2]⟩ ⟨0⟩ sampleA sampleA2
    (by decide) (by decide) (by decide) (by decide) (by decide)).1

/-! ## Register -/

/-- C6: `Register` recognises three handler shapes.  For a value of the HTTP shape the
runtime receives exactly one more call, `RegisterHTTPFunction`, carrying that handler;
for the OpenFunction shape `RegisterOpenFunction`; for the CloudEvent shape
`RegisterCloudEventFunction`; for any other value the result is the error
"unrecognized function" and the runtime receives no call.  `Register` returns an error
exactly when the shape is not recognised or the call made on the runtime returned an
error. -/
theorem Register_shapes (env : Env) (fwk : functionsFrameworkImpl) (ctx : GoContext)
    (fn : GoValue) :
    (∀ f, fn = GoValue.httpFunc f →
        ∃ rf, (Register env fwk ctx fn).1.runtime = fwk.runtime ++
            [.RegisterHTTPFunction (some fwk.funcContext) fwk.prePlugins fwk.postPlugins rf]
          ∧ rf.GetFunctionType = .HTTPType ∧ rf.GetHTTPFunction = f)
      ∧ (∀ f, fn = GoValue.openFunctionFunc f →
        ∃ rf, (Register env fwk ctx fn).1.runtime = fwk.runtime ++
            [.RegisterOpenFunction (some fwk.funcContext) fwk.prePlugins fwk.postPlugins rf]
          ∧ rf.GetFunctionType = .OpenFunctionType ∧ rf.GetOpenFunctionFunction = f)
      ∧ (∀ f, fn = GoValue.cloudEventFunc f →
        ∃ rf, (Register env fwk ctx fn).1.runtime = fwk.runtime ++
            [.RegisterCloudEventFunction ctx (some fwk.funcContext) fwk.prePlugins
              fwk.postPlugins rf]
          ∧ rf.GetFunctionType = .CloudEventType ∧ rf.GetCloudEventFunction = f)
      ∧ (∀ t, fn = GoValue.other t →
        Register env fwk ctx fn = (fwk, some "unrecognized function"))
      ∧ ((Register env fwk ctx fn).2 ≠ none ↔
        ((∃ t, fn = GoValue.other t) ∨
          ∃ c, (Register env fwk ctx fn).1.runtime = fwk.runtime ++ [c]
            ∧ env.runtimeResult fwk.runtime c ≠ none)) := by
  refine ⟨?_, ?_, ?_, ?_, ?_⟩
  · rintro f rfl
    rw [Register_httpFunc]
    exact ⟨_, rfl, rfl, rfl⟩
  · rintro f rfl
    rw [Register_openFunctionFunc]
    exact ⟨_, rfl, rfl, rfl⟩
  · rintro f rfl
    rw [Register_cloudEventFunc]
    exact ⟨_, rfl, rfl, rfl⟩
  · rintro t rfl
    rfl
  · cases fn with
    | httpFunc f =>
      rw [Register_httpFunc]
      simp [callRuntime]
    | openFunctionFunc f =>
      rw [Register_openFunctionFunc]
      simp [callRuntime]
    | cloudEventFunc f =>
      rw [Register_cloudEventFunc]
      simp [callRuntime]
    | other t => simp [Register]

/-! ## Deploy-all -/

theorem deployCall_spec (env : Env) (ctx : GoContext) (prePlugins postPlugins : List Plugin)
    (rf : RegisteredFunction) (c : RuntimeCall)
    (h : deployCall env ctx prePlugins postPlugins rf = some c) :
    c.isRegistration = true ∧ c.kind = some rf.GetFunctionType ∧ c.registered = some rf := by
  unfold deployCall at h
  split at h
  all_goals first
    | (simp only [Option.some.injEq] at h
       subst h
       simp_all [RuntimeCall.isRegistration, RuntimeCall.kind, RuntimeCall.registered])
    | simp at h

theorem deployCall_isSome (env : Env) (ctx : GoContext) (prePlugins postPlugins : List Plugin)
    (rf : RegisteredFunction) (hk : rf.GetFunctionType.isKnown = true) :
    ∃ c, deployCall env ctx prePlugins postPlugins rf = some c := by
  unfold deployCall
  split
  · exact ⟨_, rfl⟩
  · exact ⟨_, rfl⟩
  · exact ⟨_, rfl⟩
  · next tag htag =>
    rw [htag] at hk
    simp [FunctionType.isKnown] at hk

/-- A successful run of the deploy-all loop leaves registry, hook lists and context
untouched and adds, for each name in order, the call of the entry found for it. -/
theorem registerAll_success (env : Env) (ctx : GoContext) :
    ∀ (names : List String) (fwk fwk2 : functionsFrameworkImpl),
      registerAll env ctx names fwk = (fwk2, none) →
      fwk2.registry = fwk.registry ∧ fwk2.prePlugins = fwk.prePlugins
        ∧ fwk2.postPlugins = fwk.postPlugins ∧ fwk2.funcContext = fwk.funcContext
        ∧ fwk2.runtime = fwk.runtime ++ names.filterMap (fun n =>
            (fwk.registry.GetRegisteredFunction n).bind
              (deployCall env ctx fwk.prePlugins fwk.postPlugins)) := by
  intro names
  induction names with
  | nil =>
    intro fwk fwk2 h
    simp only [registerAll, Prod.mk.injEq, and_true] at h
    subst h
    simp
  | cons name rest ih =>
    intro fwk fwk2 h
    rw [registerAll] at h
    cases hl : fwk.registry.GetRegisteredFunction name with
    | none =>
      rw [hl] at h
      simp only at h
      have := ih fwk fwk2 h
      simpa [hl] using this
    | some rf =>
      rw [hl] at h
      simp only at h
      cases hc : env.GetRuntimeContext with
      | error e => rw [hc] at h; simp at h
      | ok c =>
        rw [hc] at h
        simp only [GoMap.get_set_self, callRuntime] at h
        cases hty : rf.GetFunctionType with
        | HTTPType =>
          rw [hty] at h
          simp only at h
          split at h
          · simp at h
          · next fwk3 heq =>
            simp only [Prod.mk.injEq] at heq
            obtain ⟨h3, -⟩ := heq
            subst h3
            have := ih _ fwk2 h
            simpa [hl, deployCall, hty, hc, Except.toOption] using this
        | CloudEventType =>
          rw [hty] at h
          simp only at h
          split at h
          · simp at h
          · next fwk3 heq =>
            simp only [Prod.mk.injEq] at heq
            obtain ⟨h3, -⟩ := heq
            subst h3
            have := ih _ fwk2 h
            simpa [hl, deployCall, hty, hc, Except.toOption] using this
        | OpenFunctionType =>
          rw [hty] at h
          simp only at h
          split at h
          · simp at h
          · next fwk3 heq =>
            simp only [Prod.mk.injEq] at heq
            obtain ⟨h3, -⟩ := heq
            subst h3
            have := ih _ fwk2 h
            simpa [hl, deployCall, hty, hc, Except.toOption] using this
        | other tag =>
          rw [hty] at h
          simp only at h
          have := ih _ fwk2 h
          simpa [hl, deployCall, hty] using this

theorem find_of_mem_of_nodup_names :
    ∀ (l : List RegisteredFunction) (rf : RegisteredFunction),
      (l.map (fun x => x.functionName)).Nodup → rf ∈ l →
      l.find? (fun x => decide (x.functionName = rf.functionName)) = some rf := by
  intro l
  induction l with
  | nil => intro rf _ h; simp at h
  | cons a rest ih =>
    intro rf hnd hmem
    simp only [List.map_cons, List.nodup_cons] at hnd
    rcases List.mem_cons.mp hmem with heq | hin
    · subst heq
      simp
    · have hne : a.functionName ≠ rf.functionName := by
        intro hEq
        apply hnd.1
        rw [hEq]
        exact List.mem_map.mpr ⟨rf, hin, rfl⟩
      rw [List.find?_cons]
      simp only [hne, decide_False]
      exact ih rf hnd.2 hin

theorem Registry.lookup_of_mem (r : Registry) (hu : r.UniqueNames) (rf : RegisteredFunction)
    (h : rf ∈ r.functions) : r.GetRegisteredFunction rf.functionName = some rf :=
  find_of_mem_of_nodup_names r.functions rf hu h

theorem forall2_filterMap_of_total {α β : Type} (P : α → β → Prop) (g : α → Option β) :
    ∀ l : List α, (∀ a ∈ l, ∃ b, g a = some b ∧ P a b) → List.Forall₂ P l (l.filterMap g) := by
  intro l
  induction l with
  | nil => intro _; simp
  | cons a rest ih =>
    intro h
    obtain ⟨b, hb, hP⟩ := h a (List.mem_cons_self a rest)
    rw [List.filterMap_cons_some hb]
    exact List.Forall₂.cons hP (ih (fun x hx => h x (List.mem_cons_of_mem a hx)))

/-- C9: with an empty `FUNCTION_TARGET`, when the runtime kind is not Async or at most
one name is registered, a successful `TryRegisterFunctions` adds to the calls received
by the runtime one registration call per registered name, in the order of the name
list: the call of the trigger kind of the entry found under that name, carrying that
entry itself.  The number of calls added equals the number of registered names, and
with an empty registry no call is made and no error returned.  The registry is taken
with unique names and entries of the three trigger kinds. -/
theorem TryRegisterFunctions_deploy_all (env : Env) (fwk : functionsFrameworkImpl)
    (ctx : GoContext) (ht : env.FUNCTION_TARGET = "")
    (hpre : fwk.funcContext.GetRuntime ≠ Runtime.Async
      ∨ fwk.registry.GetFunctionNames.length ≤ 1)
    (hu : fwk.registry.UniqueNames) (hk : fwk.registry.KnownKinds) :
    ((TryRegisterFunctions env fwk ctx).2 = none →
      ∃ calls, (TryRegisterFunctions env fwk ctx).1.runtime = fwk.runtime ++ calls
        ∧ List.Forall₂
            (fun name c => ∃ rf, fwk.registry.GetRegisteredFunction name = some rf
              ∧ rf.GetName = name ∧ c.isRegistration = true
              ∧ c.kind = some rf.GetFunctionType ∧ c.registered = some rf)
            fwk.registry.GetFunctionNames calls
        ∧ calls.length = fwk.registry.GetFunctionNames.length)
      ∧ (fwk.registry.functions = [] → TryRegisterFunctions env fwk ctx = (fwk, none)) := by
  have hcond : ¬ (fwk.registry.GetFunctionNames.length > 1
      ∧ fwk.funcContext.GetRuntime = Runtime.Async) := by
    rintro ⟨h1, h2⟩
    rcases hpre with h | h
    · exact h h2
    · omega
  have hT : TryRegisterFunctions env fwk ctx =
      if fwk.registry.GetFunctionNames.length > 0 then
        registerAll env ctx fwk.registry.GetFunctionNames fwk
      else (fwk, none) := by
    simp only [TryRegisterFunctions, ht, String.length_empty, gt_iff_lt, lt_self_iff_false,
      if_false, hcond]
  refine ⟨?_, ?_⟩
  · intro hok
    have hreg : registerAll env ctx fwk.registry.GetFunctionNames fwk
        = TryRegisterFunctions env fwk ctx := by
      rw [hT]
      split
      · rfl
      · next hlen =>
        have : fwk.registry.GetFunctionNames = [] := by
          cases hnames : fwk.registry.GetFunctionNames with
          | nil => rfl
          | cons a l => rw [hnames] at hlen; simp at hlen
        rw [this]
        rfl
    have hpair : registerAll env ctx fwk.registry.GetFunctionNames fwk
        = ((TryRegisterFunctions env fwk ctx).1, none) := by
      rw [hreg, ← hok]
    have hmain := (registerAll_success env ctx _ fwk _ hpair).2.2.2.2
    have hall : ∀ name ∈ fwk.registry.GetFunctionNames, ∃ c,
        (fun n => (fwk.registry.GetRegisteredFunction n).bind
          (deployCall env ctx fwk.prePlugins fwk.postPlugins)) name = some c
        ∧ ∃ rf, fwk.registry.GetRegisteredFunction name = some rf
          ∧ rf.GetName = name ∧ c.isRegistration = true
          ∧ c.kind = some rf.GetFunctionType ∧ c.registered = some rf := by
      intro name hname
      obtain ⟨rf, hrf, hnm⟩ := List.mem_map.mp hname
      have hlook := Registry.lookup_of_mem fwk.registry hu rf hrf
      rw [hnm] at hlook
      obtain ⟨c, hc⟩ := deployCall_isSome env ctx fwk.prePlugins fwk.postPlugins rf
        (hk rf hrf)
      have hspec := deployCall_spec env ctx fwk.prePlugins fwk.postPlugins rf c hc
      exact ⟨c, by simp [hlook, hc], rf, hlook, hnm, hspec.1, hspec.2.1, hspec.2.2⟩
    have hF := forall2_filterMap_of_total _ _ fwk.registry.GetFunctionNames hall
    exact ⟨_, hmain, hF, hF.length_eq.symm⟩
  · intro hempty
    rw [hT]
    simp [Registry.GetFunctionNames, hempty]

theorem TryRegisterFunctions_deploy_all_witness :
    (TryRegisterFunctions (sampleEnv "" .Knative)
        (sampleFramework .Knative [sampleA, sampleB]) ⟨0⟩).2 = none
      ∧ (TryRegisterFunctions (sampleEnv "" .Knative)
          (sampleFramework .Knative [sampleA, sampleB]) ⟨0⟩).1.runtime =
        [.RegisterHTTPFunction (some (sampleContext .Knative)) [] [] sampleA,
         .RegisterCloudEventFunction ⟨0⟩ (some (sampleContext .Knative)) [] [] sampleB]
      ∧ ∃ calls,
        (TryRegisterFunctions (sampleEnv "" .Knative)
            (sampleFramework .Knative [sampleA, sampleB]) ⟨0⟩).1.runtime
          = (sampleFramework .Knative [sampleA, sampleB]).runtime ++ calls
        ∧ calls.length = 2 := by
  have hok : (TryRegisterFunctions (sampleEnv "" .Knative)
      (sampleFramework .Knative [sampleA, sampleB]) ⟨0⟩).2 = none := by decide
  obtain ⟨calls, h1, _, h3⟩ := (TryRegisterFunctions_deploy_all (sampleEnv "" .Knative)
    (sampleFramework .Knative [sampleA, sampleB]) ⟨0⟩ rfl
    (Or.inl (by decide)) (by decide) (by decide)).1 hok
  exact ⟨hok, by decide, calls, h1, h3⟩

/-! ## Plugins -/

theorem registerCustomPlugins_get (name : String) :
    ∀ (customPlugins pluginMap : GoMap Plugin),
      (registerCustomPlugins customPlugins pluginMap).get name =
        match pluginMap.get name with
        | some p => some p
        | none => customPlugins.get name := by
  intro customPlugins
  induction customPlugins with
  | nil =>
    intro pluginMap
    simp only [registerCustomPlugins, List.foldl_nil, GoMap.get]
    cases pluginMap.get name <;> rfl
  | cons b rest ih =>
    intro pluginMap
    obtain ⟨k, v⟩ := b
    have hstep : registerCustomPlugins ((k, v) :: rest) pluginMap =
        registerCustomPlugins rest
          (match pluginMap.get k with
            | none => pluginMap.set k v
            | some _ => pluginMap) := rfl
    rw [hstep, ih]
    cases hk : pluginMap.get k with
    | some q =>
      simp only
      cases hn : pluginMap.get name with
      | some p => rfl
      | none =>
        have hne : k ≠ name := by
          intro h
          rw [h] at hk
          rw [hk] at hn
          exact Option.noConfusion hn
        simp [GoMap.get, hne]
    | none =>
      simp only
      by_cases hkn : k = name
      · subst hkn
        rw [GoMap.get_set_self, hk]
        simp [GoMap.get]
      · rw [GoMap.get_set_other _ _ _ _ hkn]
        cases pluginMap.get name with
        | some p => rfl
        | none => simp [GoMap.get, hkn]

theorem appendResolved_eq (pluginMap : GoMap Plugin) :
    ∀ (names : List String) (plugins : List Plugin),
      appendResolved pluginMap names plugins = plugins ++ names.filterMap pluginMap.get := by
  intro names
  induction names with
  | nil => intro plugins; simp [appendResolved]
  | cons n rest ih =>
    intro plugins
    have hstep : appendResolved pluginMap (n :: rest) plugins =
        appendResolved pluginMap rest
          (match pluginMap.get n with
            | some plg => plugins ++ [plg]
            | none => plugins) := rfl
    rw [hstep, ih]
    cases hn : pluginMap.get n with
    | some plg => simp [List.filterMap_cons, hn]
    | none => simp [List.filterMap_cons, hn]

theorem RegisterPlugins_pluginMap_get (d : DefaultPlugins) (fwk : functionsFrameworkImpl)
    (customPlugins : Option (GoMap Plugin)) (hd : d.plgExampleName ≠ d.skywalkingName)
    (name : String) :
    (RegisterPlugins d fwk customPlugins).pluginMap.get name
      = catalogSpec d customPlugins name := by
  have h0 : ∀ n, (GoMap.set (GoMap.set ([] : GoMap Plugin) d.plgExampleName d.plgExampleNew)
      d.skywalkingName d.skywalkingNew).get n =
      if n = d.plgExampleName then some d.plgExampleNew
      else if n = d.skywalkingName then some d.skywalkingNew else none := by
    intro n
    simp only [GoMap.set, hd, if_false, GoMap.get]
    by_cases h1 : d.plgExampleName = n
    · simp [h1]
    · have h1b : ¬ n = d.plgExampleName := fun h => h1 h.symm
      by_cases h2 : d.skywalkingName = n
      · simp [h1, h1b, h2]
      · have h2b : ¬ n = d.skywalkingName := fun h => h2 h.symm
        simp [h1, h1b, h2, h2b]
  unfold catalogSpec
  cases customPlugins with
  | none =>
    simp only [RegisterPlugins, h0]
  | some custom =>
    simp only [RegisterPlugins, registerCustomPlugins_get, h0]
    by_cases h1 : name = d.plgExampleName
    · simp [h1]
    · by_cases h2 : name = d.skywalkingName
      · subst h2
        simp [hd.symm]
      · simp [h1, h2]

/-- C7: on a framework whose hook lists are empty, `RegisterPlugins` makes the pre-hook
list the sequence obtained by walking `GetPrePlugins()` in order and keeping, for each
name found in the catalog, the plugin of the catalog (other names are dropped, order and
repetitions kept), and likewise the post-hook list from `GetPostPlugins()`.  The
catalog, read by name, is the two built-in plugins plus the custom plugins whose name is
not a built-in name: a built-in name always yields the built-in plugin. -/
theorem RegisterPlugins_resolves (d : DefaultPlugins) (fwk : functionsFrameworkImpl)
    (customPlugins : Option (GoMap Plugin)) (hd : d.plgExampleName ≠ d.skywalkingName)
    (hpre : fwk.prePlugins = []) (hpost : fwk.postPlugins = []) :
    (RegisterPlugins d fwk customPlugins).prePlugins
        = resolveSpec (catalogSpec d customPlugins) fwk.funcContext.GetPrePlugins
      ∧ (RegisterPlugins d fwk customPlugins).postPlugins
        = resolveSpec (catalogSpec d customPlugins) fwk.funcContext.GetPostPlugins
      ∧ (∀ name, (RegisterPlugins d fwk customPlugins).pluginMap.get name
        = catalogSpec d customPlugins name)
      ∧ (RegisterPlugins d fwk customPlugins).pluginMap.get d.plgExampleName
        = some d.plgExampleNew
      ∧ (RegisterPlugins d fwk customPlugins).pluginMap.get d.skywalkingName
        = some d.skywalkingNew := by
  have hget := RegisterPlugins_pluginMap_get d fwk customPlugins hd
  have hfun : (RegisterPlugins d fwk customPlugins).pluginMap.get
      = catalogSpec d customPlugins := funext hget
  refine ⟨?_, ?_, hget, ?_, ?_⟩
  · have : (RegisterPlugins d fwk customPlugins).prePlugins =
        appendResolved (RegisterPlugins d fwk customPlugins).pluginMap
          fwk.funcContext.GetPrePlugins fwk.prePlugins := rfl
    rw [this, appendResolved_eq, hpre, hfun]
    rfl
  · have : (RegisterPlugins d fwk customPlugins).postPlugins =
        appendResolved (RegisterPlugins d fwk customPlugins).pluginMap
          fwk.funcContext.GetPostPlugins fwk.postPlugins := rfl
    rw [this, appendResolved_eq, hpost, hfun]
    rfl
  · rw [hget]
    simp [catalogSpec]
  · rw [hget]
    simp [catalogSpec, hd.symm]

theorem RegisterPlugins_resolves_witness :
    (RegisterPlugins sampleDefaults samplePluginFramework sampleCustom).prePlugins
        = [⟨2⟩, ⟨8⟩, ⟨2⟩]
      ∧ (RegisterPlugins sampleDefaults samplePluginFramework sampleCustom).postPlugins
        = [⟨8⟩, ⟨1⟩]
      ∧ (RegisterPlugins sampleDefaults samplePluginFramework sampleCustom).prePlugins
        = resolveSpec (catalogSpec sampleDefaults sampleCustom)
            samplePluginFramework.funcContext.GetPrePlugins :=
  ⟨by decide, by decide,
    (RegisterPlugins_resolves sampleDefaults samplePluginFramework sampleCustom
      (by decide) rfl rfl).1⟩

/-! ## Knative routes -/

theorem registerMethodRoutes_eq (chi : Chi) (pattern : String) (fn : HandlerFunc) :
    ∀ (methods : List String) (mx : Mux),
      registerMethodRoutes chi pattern fn methods mx =
        (mx ++ (methods.takeWhile (fun m => chi.methodFuncAccepts m pattern)).map
            (fun m => RouterCall.MethodFunc m pattern fn),
          methods.all (fun m => chi.methodFuncAccepts m pattern)) := by
  intro methods
  induction methods with
  | nil => intro mx; simp [registerMethodRoutes]
  | cons m rest ih =>
    intro mx
    by_cases hm : chi.methodFuncAccepts m pattern = true
    · simp [registerMethodRoutes, Mux.MethodFunc, hm, ih, List.takeWhile_cons]
    · simp [registerMethodRoutes, Mux.MethodFunc, hm, List.takeWhile_cons]

theorem registerRoutes_eq (chi : Chi) (handler : Mux) (rf : RegisteredFunction)
    (fn : HandlerFunc) :
    registerRoutes chi handler rf fn =
      if rf.GetFunctionMethods = [] then
        (if chi.handleFuncAccepts rf.GetPath then
          (handler ++ [RouterCall.HandleFunc rf.GetPath fn], true)
         else (handler, false))
      else
        (handler ++ (acceptedMethods chi rf).map
            (fun m => RouterCall.MethodFunc m rf.GetPath fn),
          routesAccepted chi rf) := by
  unfold registerRoutes routesAccepted acceptedMethods
  cases hm : rf.GetFunctionMethods with
  | nil =>
    simp only [List.length_nil, gt_iff_lt, lt_self_iff_false, if_false, if_true, Mux.HandleFunc]
    by_cases hacc : chi.handleFuncAccepts rf.GetPath = true
    · simp [hacc]
    · simp [hacc]
  | cons a l =>
    simp only [List.length_cons, gt_iff_lt, Nat.zero_lt_succ, if_true, registerMethodRoutes_eq]
    simp

theorem registrationEnd_of_routes (chi : Chi) (r : knative.Runtime) (ctx : RuntimeContext)
    (prePlugins postPlugins : List Plugin) (rf : RegisteredFunction) :
    (r.RegisterOpenFunction chi ctx prePlugins postPlugins rf).1.handler
        = (registerRoutes chi r.handler rf (.openFunction ctx prePlugins postPlugins rf)).1
      ∧ (r.RegisterOpenFunction chi ctx prePlugins postPlugins rf).2
        = (if (registerRoutes chi r.handler rf
              (.openFunction ctx prePlugins postPlugins rf)).2
            then RegistrationEnd.returns none else RegistrationEnd.panics)
      ∧ (r.RegisterHTTPFunction chi ctx prePlugins postPlugins rf).1.handler
        = (registerRoutes chi r.handler rf (.httpFunction ctx prePlugins postPlugins rf)).1
      ∧ (r.RegisterHTTPFunction chi ctx prePlugins postPlugins rf).2
        = (if (registerRoutes chi r.handler rf
              (.httpFunction ctx prePlugins postPlugins rf)).2
            then RegistrationEnd.returns none else RegistrationEnd.panics) := by
  refine ⟨?_, ?_, ?_, ?_⟩
  · simp only [knative.Runtime.RegisterOpenFunction]
    split <;> simp_all
  · simp only [knative.Runtime.RegisterOpenFunction]
    split <;> simp_all
  · simp only [knative.Runtime.RegisterHTTPFunction]
    split <;> simp_all
  · simp only [knative.Runtime.RegisterHTTPFunction]
    split <;> simp_all

/-- C8, amended: for both `RegisterOpenFunction` and `RegisterHTTPFunction` of the
knative runtime and every registered function.  With a non-empty methods list the
router gets one method-restricted route per listed method, in order, at the path of the
function, up to the first method it rejects, and no method-agnostic route; the call
returns (with a nil error) when the router accepts every listed method at that path,
and then the routes added are exactly one per listed method; otherwise the call
panics.  Every route added is restricted to a listed method and can only serve the
upper-case form of that method, so a request whose verb is not the upper-case form of a
listed method is served by none of them.  With an empty methods list the router gets
exactly one method-agnostic route at the path of the function and the call returns,
or the router rejects the path, no route is added and the call panics. -/
theorem knative_register_routes (chi : Chi) (r : knative.Runtime) (ctx : RuntimeContext)
    (prePlugins postPlugins : List Plugin) (rf : RegisteredFunction) :
    (rf.GetFunctionMethods ≠ [] →
        (r.RegisterOpenFunction chi ctx prePlugins postPlugins rf).1.handler
          = r.handler ++ (acceptedMethods chi rf).map (fun m =>
              RouterCall.MethodFunc m rf.GetPath
                (.openFunction ctx prePlugins postPlugins rf))
        ∧ (r.RegisterHTTPFunction chi ctx prePlugins postPlugins rf).1.handler
          = r.handler ++ (acceptedMethods chi rf).map (fun m =>
              RouterCall.MethodFunc m rf.GetPath
                (.httpFunction ctx prePlugins postPlugins rf))
        ∧ (routesAccepted chi rf = true →
            acceptedMethods chi rf = rf.GetFunctionMethods
            ∧ (r.RegisterOpenFunction chi ctx prePlugins postPlugins rf).2 = .returns none
            ∧ (r.RegisterHTTPFunction chi ctx prePlugins postPlugins rf).2 = .returns none)
        ∧ (routesAccepted chi rf = false →
            (acceptedMethods chi rf).length < rf.GetFunctionMethods.length
            ∧ (r.RegisterOpenFunction chi ctx prePlugins postPlugins rf).2 = .panics
            ∧ (r.RegisterHTTPFunction chi ctx prePlugins postPlugins rf).2 = .panics)
        ∧ (∀ m ∈ acceptedMethods chi rf, m ∈ rf.GetFunctionMethods)
        ∧ (∀ verb, (∀ m ∈ rf.GetFunctionMethods, chi.ToUpper m ≠ verb) →
            ∀ m ∈ acceptedMethods chi rf, methodRouteServes chi m verb = false))
      ∧ (rf.GetFunctionMethods = [] →
        (routesAccepted chi rf = true →
            (r.RegisterOpenFunction chi ctx prePlugins postPlugins rf).1.handler
              = r.handler ++ [RouterCall.HandleFunc rf.GetPath
                  (.openFunction ctx prePlugins postPlugins rf)]
            ∧ (r.RegisterHTTPFunction chi ctx prePlugins postPlugins rf).1.handler
              = r.handler ++ [RouterCall.HandleFunc rf.GetPath
                  (.httpFunction ctx prePlugins postPlugins rf)]
            ∧ (r.RegisterOpenFunction chi ctx prePlugins postPlugins rf).2 = .returns none
            ∧ (r.RegisterHTTPFunction chi ctx prePlugins postPlugins rf).2 = .returns none)
        ∧ (routesAccepted chi rf = false →
            (r.RegisterOpenFunction chi ctx prePlugins postPlugins rf).1.handler = r.handler
            ∧ (r.RegisterHTTPFunction chi ctx prePlugins postPlugins rf).1.handler = r.handler
            ∧ (r.RegisterOpenFunction chi ctx prePlugins postPlugins rf).2 = .panics
            ∧ (r.RegisterHTTPFunction chi ctx prePlugins postPlugins rf).2 = .panics)) := by
  obtain ⟨ho1, ho2, hh1, hh2⟩ :=
    registrationEnd_of_routes chi r ctx prePlugins postPlugins rf
  rw [registerRoutes_eq] at ho1 ho2 hh1 hh2
  refine ⟨?_, ?_⟩
  · intro hne
    simp only [hne, if_false] at ho1 ho2 hh1 hh2
    refine ⟨ho1, hh1, ?_, ?_, ?_, ?_⟩
    · intro hacc
      refine ⟨?_, by rw [ho2, hacc]; rfl, by rw [hh2, hacc]; rfl⟩
      have hlen : rf.GetFunctionMethods.length > 0 := List.length_pos.mpr hne
      simp only [routesAccepted, hlen, if_true, List.all_eq_true] at hacc
      exact List.takeWhile_eq_self_iff.mpr hacc
    · intro hrej
      refine ⟨?_, by rw [ho2, hrej]; rfl, by rw [hh2, hrej]; rfl⟩
      have hlen : rf.GetFunctionMethods.length > 0 := List.length_pos.mpr hne
      have hle : (acceptedMethods chi rf).length ≤ rf.GetFunctionMethods.length :=
        (List.takeWhile_sublist _).length_le
      rcases Nat.lt_or_ge (acceptedMethods chi rf).length rf.GetFunctionMethods.length
        with hlt | hge
      · exact hlt
      · exfalso
        have heq : acceptedMethods chi rf = rf.GetFunctionMethods :=
          (List.takeWhile_sublist _).eq_of_length_le hge
        have hall := List.takeWhile_eq_self_iff.mp heq
        have : routesAccepted chi rf = true := by
          simp only [routesAccepted, hlen, if_true, List.all_eq_true]
          exact hall
        rw [this] at hrej
        exact Bool.noConfusion hrej
    · intro m hm
      exact (List.takeWhile_sublist _).subset hm
    · intro verb hverb m hm
      have hin : m ∈ rf.GetFunctionMethods := (List.takeWhile_sublist _).subset hm
      simp [methodRouteServes, hverb m hin]
  · intro he
    have hacc : routesAccepted chi rf = chi.handleFuncAccepts rf.GetPath := by
      simp [routesAccepted, he]
    simp only [he, if_true] at ho1 ho2 hh1 hh2
    refine ⟨?_, ?_⟩
    · intro h
      rw [hacc] at h
      simp only [h, if_true] at ho1 ho2 hh1 hh2
      exact ⟨ho1, hh1, ho2, hh2⟩
    · intro h
      rw [hacc] at h
      simp only [h] at ho1 ho2 hh1 hh2
      exact ⟨ho1, hh1, ho2, hh2⟩

theorem knative_register_routes_witness :
    (NewKnativeRuntime "8080" "/" |>.RegisterHTTPFunction sampleChi
        (sampleContext .Knative) [] [] sampleTwo).1.handler
      = [RouterCall.MethodFunc "GET" "/a"
            (.httpFunction (sampleContext .Knative) [] [] sampleTwo),
         RouterCall.MethodFunc "post" "/a"
            (.httpFunction (sampleContext .Knative) [] [] sampleTwo)]
      ∧ (NewKnativeRuntime "8080" "/" |>.RegisterHTTPFunction sampleChi
        (sampleContext .Knative) [] [] sampleTwo).2 = .returns none
      ∧ methodRouteServes sampleChi "post" "DELETE" = false := by
  have h := (knative_register_routes sampleChi (NewKnativeRuntime "8080" "/")
    (sampleContext .Knative) [] [] sampleTwo).1 (by decide)
  have hacc := h.2.2.1 (by decide)
  refine ⟨?_, hacc.2.2, ?_⟩
  · rw [h.2.1, hacc.1]
    rfl
  · exact h.2.2.2.2.2 "DELETE" (by decide) "post" (by decide)

/-- C8 as stated fails at two inputs.  With the methods `GET`, `FOO`, `POST` the router
rejects `FOO`: the call panics after adding the route for `GET` only, so the router does
not get one route per listed method.  With the method `get` the route added serves the
verb `GET`, which is not in the methods list. -/
theorem knative_register_routes_counterexample :
    ((NewKnativeRuntime "8080" "/" |>.RegisterHTTPFunction sampleChi
          (sampleContext .Knative) [] [] sampleFoo).2 = .panics
        ∧ (NewKnativeRuntime "8080" "/" |>.RegisterHTTPFunction sampleChi
          (sampleContext .Knative) [] [] sampleFoo).1.handler
          = [RouterCall.MethodFunc "GET" "/a"
              (.httpFunction (sampleContext .Knative) [] [] sampleFoo)]
        ∧ (NewKnativeRuntime "8080" "/" |>.RegisterHTTPFunction sampleChi
          (sampleContext .Knative) [] [] sampleFoo).1.handler
          ≠ (NewKnativeRuntime "8080" "/").handler ++ sampleFoo.GetFunctionMethods.map
              (fun m => RouterCall.MethodFunc m sampleFoo.GetPath
                (.httpFunction (sampleContext .Knative) [] [] sampleFoo))
        ∧ (NewKnativeRuntime "8080" "/" |>.RegisterOpenFunction sampleChi
          (sampleContext .Knative) [] [] sampleFoo).2 = .panics)
      ∧ ("GET" ∉ sampleLower.GetFunctionMethods
        ∧ (NewKnativeRuntime "8080" "/" |>.RegisterHTTPFunction sampleChi
          (sampleContext .Knative) [] [] sampleLower).1.handler
          = [RouterCall.MethodFunc "get" "/a"
              (.httpFunction (sampleContext .Knative) [] [] sampleLower)]
        ∧ methodRouteServes sampleChi "get" "GET" = true) := by
  decide

/-! ## The synchronous HTTP adapters -/

/-- C1: when the run returned, the closure built by `RegisterOpenFunction` adds to the
response: for a result of code `Success`, the header `X-OpenFunction-Status: success`,
the status code of the result (200) and one write of the data of the result; for a
result of code `InternalError`, the header `X-OpenFunction-Status: error` and the status
code of the result, and no write; for any other code, nothing.  The deferred guard adds
nothing and the closure returns. -/
theorem openFunctionAdapter_returned (InternalError : Int) (hne : InternalError ≠ Success)
    (w : ResponseWriter) (out : Out) :
    (out.GetCode = Success →
        openFunctionAdapter InternalError (.returned w out)
          = (w ++ [.HeaderSet "X-OpenFunction-Status" "success", .WriteHeader out.GetCode,
              .Write out.GetData], .returns)
        ∧ out.GetCode = 200)
      ∧ (out.GetCode = InternalError →
        openFunctionAdapter InternalError (.returned w out)
          = (w ++ [.HeaderSet "X-OpenFunction-Status" "error", .WriteHeader out.GetCode],
              .returns))
      ∧ (out.GetCode ≠ Success → out.GetCode ≠ InternalError →
        openFunctionAdapter InternalError (.returned w out) = (w, .returns)) := by
  refine ⟨?_, ?_, ?_⟩
  · intro h
    refine ⟨?_, h⟩
    simp [openFunctionAdapter, openFunctionBody, deferRecoverPanicHTTP, RecoverPanicHTTP, h,
      functionStatusHeader, successStatus]
  · intro h
    simp [openFunctionAdapter, openFunctionBody, deferRecoverPanicHTTP, RecoverPanicHTTP, h, hne,
      functionStatusHeader, errorStatus]
  · intro h1 h2
    simp [openFunctionAdapter, openFunctionBody, deferRecoverPanicHTTP, RecoverPanicHTTP, h1, h2]

theorem openFunctionAdapter_returned_witness :
    openFunctionAdapter 500 (.returned [] ⟨200, [104, 105]⟩)
        = ([.HeaderSet "X-OpenFunction-Status" "success", .WriteHeader 200,
            .Write [104, 105]], .returns)
      ∧ openFunctionAdapter 500 (.returned [] ⟨500, [104, 105]⟩)
        = ([.HeaderSet "X-OpenFunction-Status" "error", .WriteHeader 500], .returns)
      ∧ openFunctionAdapter 500 (.returned [] ⟨404, [104, 105]⟩) = ([], .returns) := by
  refine ⟨?_, ?_, ?_⟩
  · exact ((openFunctionAdapter_returned 500 (by decide) [] ⟨200, [104, 105]⟩).1 rfl).1
  · exact (openFunctionAdapter_returned 500 (by decide) [] ⟨500, [104, 105]⟩).2.1 rfl
  · exact (openFunctionAdapter_returned 500 (by decide) [] ⟨404, [104, 105]⟩).2.2
      (by decide) (by decide)

/-! ## Facts on the format loop -/

theorem parsenumLoop_length_le :
    ∀ (s : GoString) (num : Nat) (isnum : Bool),
      (parsenumLoop num isnum s).2.2.length ≤ s.length := by
  intro s
  induction s with
  | nil => intro num isnum; simp [parsenumLoop]
  | cons c cs ih =>
    intro num isnum
    unfold parsenumLoop
    split
    · split
      · simp
      · exact Nat.le_succ_of_le (ih _ _)
    · simp

theorem argNumber_length_le (s : GoString) : (argNumber s).1.length ≤ s.length := by
  unfold argNumber
  split
  · simp only [List.length_drop]
    omega
  · exact Nat.le_refl _

theorem widthStep_length_le (s : GoString) (afterIndex good : Bool) :
    (widthStep s afterIndex good).1.length ≤ s.length := by
  unfold widthStep
  split
  · simp
  · exact parsenumLoop_length_le s 0 false

theorem precisionStep_length_le (s : GoString) (afterIndex good : Bool) :
    (precisionStep s afterIndex good).1.length ≤ s.length := by
  unfold precisionStep
  split
  · next t =>
    have h1 := argNumber_length_le t
    split
    next t1 aP gP heq =>
    rw [heq] at h1
    simp only at h1
    split
    · next t2 =>
      simp only [List.length_cons] at h1 ⊢
      omega
    · have h2 := parsenumLoop_length_le t1 0 false
      simp only [List.length_cons]
      unfold parsenum
      exact Nat.le_trans h2 (Nat.le_trans h1 (Nat.le_succ _))
  · exact Nat.le_refl _

theorem indexStep_length_le (s : GoString) (afterIndex good : Bool) :
    (indexStep s afterIndex good).1.length ≤ s.length := by
  unfold indexStep
  split
  · exact Nat.le_refl _
  · exact argNumber_length_le s

/-- The format left after a directive is strictly shorter than the format that follows
the `%`. -/
theorem parseDirective_rest_length (afterPercent out rest : GoString) (verb : Char)
    (good : Bool) (h : parseDirective afterPercent = (out, some (verb, good, rest))) :
    rest.length < afterPercent.length := by
  have h1 : (afterPercent.dropWhile isFlag).length ≤ afterPercent.length :=
    (List.dropWhile_sublist _).length_le
  have h2 := argNumber_length_le (afterPercent.dropWhile isFlag)
  have h3 := widthStep_length_le (argNumber (afterPercent.dropWhile isFlag)).1
    (argNumber (afterPercent.dropWhile isFlag)).2.1
    (argNumber (afterPercent.dropWhile isFlag)).2.2
  generalize hwd : widthStep (argNumber (afterPercent.dropWhile isFlag)).1
    (argNumber (afterPercent.dropWhile isFlag)).2.1
    (argNumber (afterPercent.dropWhile isFlag)).2.2 = wd at h3
  have h4 := precisionStep_length_le wd.1 wd.2.2.1 wd.2.2.2
  generalize hpr : precisionStep wd.1 wd.2.2.1 wd.2.2.2 = pr at h4
  have h5 := indexStep_length_le pr.1 pr.2.2.1 pr.2.2.2
  generalize hix : indexStep pr.1 pr.2.2.1 pr.2.2.2 = ix at h5
  simp only [parseDirective, hwd, hpr, hix] at h
  split at h
  · simp at h
  · next v r hv =>
    simp only [Prod.mk.injEq, Option.some.injEq] at h
    obtain ⟨-, -, -, hr⟩ := h
    subst hr
    rw [hv] at h5
    simp only [List.length_cons] at h5
    omega

/-- Fuel adequacy: any fuel above the length of the format gives the same text. -/
theorem doPrintfLoop_fuel :
    ∀ (n m : Nat) (format : GoString), format.length < n → format.length < m →
      doPrintfLoop n format = doPrintfLoop m format := by
  intro n
  induction n with
  | zero => intro m format h; omega
  | succ k ih =>
    intro m format hn hm
    cases m with
    | zero => omega
    | succ j =>
      unfold doPrintfLoop
      simp only
      split
      · rfl
      · next c afterPercent hdrop =>
        have hlen : afterPercent.length < format.length := by
          have := (List.dropWhile_sublist (fun c => c != '%') (l := format)).length_le
          rw [hdrop] at this
          simp only [List.length_cons] at this
          omega
        split
        · rfl
        · next out verb good rest hpd =>
          have hrest := parseDirective_rest_length afterPercent out rest verb good hpd
          rw [ih j rest (by omega) (by omega)]

theorem Fprintf0_fuel (n : Nat) (format : GoString) (h : format.length < n) :
    doPrintfLoop n format = Fprintf0 format :=
  doPrintfLoop_fuel n (format.length + 1) format h (Nat.lt_succ_self _)

/-- A format without `%` is written as it is. -/
theorem Fprintf0_of_no_percent (format : GoString) (h : '%' ∉ format) :
    Fprintf0 format = format := by
  have hall : ∀ c ∈ format, (c != '%') = true := by
    intro c hc
    simp only [bne_iff_ne, ne_eq]
    intro heq
    exact h (heq ▸ hc)
  have hd : format.dropWhile (fun c => c != '%') = [] := List.dropWhile_eq_nil_iff.mpr hall
  have ht : format.takeWhile (fun c => c != '%') = format := List.takeWhile_eq_self_iff.mpr hall
  unfold Fprintf0 doPrintfLoop
  simp only [hd, ht]

/-- The text written starts with the literal text that precedes the first `%`. -/
theorem doPrintfLoop_literal (fuel : Nat) (format : GoString) :
    ∃ t, doPrintfLoop (fuel + 1) format = format.takeWhile (fun c => c != '%') ++ t := by
  unfold doPrintfLoop
  simp only
  split
  · exact ⟨[], by simp⟩
  · split
    · exact ⟨_, by rw [List.append_assoc]⟩
    · exact ⟨_, by rw [List.append_assoc, List.append_assoc]⟩

theorem hasNewlineSuffix_concat (m : GoString) : hasNewlineSuffix (m ++ ['\n']) = true := by
  simp [hasNewlineSuffix, List.getLast?_concat]

/-- The body written on a panic is never empty. -/
theorem crash_body_nonempty (r : PanicValue) (stack : GoString) :
    Fprintf0 (crashMessage "Function panic".toList r stack) ≠ [] := by
  obtain ⟨t, ht⟩ := doPrintfLoop_literal
    (crashMessage "Function panic".toList r stack).length
    (crashMessage "Function panic".toList r stack)
  have hm : ∃ tl, crashMessage "Function panic".toList r stack = 'F' :: tl := by
    simp only [crashMessage]
    split
    · exact ⟨_, rfl⟩
    · exact ⟨_, rfl⟩
  obtain ⟨tl, htl⟩ := hm
  unfold Fprintf0
  rw [ht, htl]
  simp [List.takeWhile_cons]

/-- When neither the text of the panic value nor the stack text contains `%`, the body
written on a panic is the crash message itself, which ends in a newline. -/
theorem crash_body_of_no_percent (r : PanicValue) (stack : GoString)
    (hr : '%' ∉ r.text) (hs : '%' ∉ stack) :
    Fprintf0 (crashMessage "Function panic".toList r stack)
        = crashMessage "Function panic".toList r stack
      ∧ hasNewlineSuffix (crashMessage "Function panic".toList r stack) = true := by
  constructor
  · apply Fprintf0_of_no_percent
    simp only [crashMessage]
    split <;> simp [hr, hs]
  · simp only [crashMessage]
    split
    · exact hasNewlineSuffix_concat _
    · next h => simpa using h

/-! ## The panic guard -/

/-- When the run panicked, both closures add the header `X-OpenFunction-Status: crash`,
the status 500 and one write, the text `fmt.Fprintf` produces from the crash message
used as a format, and return instead of panicking. -/
theorem adapters_panicked (InternalError : Int) (w : ResponseWriter) (r : PanicValue)
    (stack : GoString) :
    openFunctionAdapter InternalError (.panicked w r stack)
        = (w ++ [.HeaderSet "X-OpenFunction-Status" "crash", .WriteHeader 500,
            .Fprintf (Fprintf0 (crashMessage "Function panic".toList r stack))], .returns)
      ∧ httpFunctionAdapter (.panicked w r stack)
        = (w ++ [.HeaderSet "X-OpenFunction-Status" "crash", .WriteHeader 500,
            .Fprintf (Fprintf0 (crashMessage "Function panic".toList r stack))], .returns) := by
  constructor <;> rfl

/-- When the run returned, the guard `RecoverPanicHTTP` leaves the response as it is, and
the closure built by `RegisterHTTPFunction` adds nothing to the response. -/
theorem adapters_returned_guard_silent (w : ResponseWriter) (msg stack : GoString)
    (out : Out) :
    RecoverPanicHTTP w msg none stack = w
      ∧ httpFunctionAdapter (.returned w out) = (w, .returns) := by
  constructor <;> rfl

/-- C2, with the failing input: for every panic value, stack text and earlier content
of the response, both closures add the header `X-OpenFunction-Status: crash`, the
status 500 and one write of a non-empty body, and return instead of panicking; when the
run returned, the guard `RecoverPanicHTTP` leaves the response as it is; when neither
the text of the panic value nor the stack text contains `%`, the body is the crash
message and ends in a newline.  But when the run panics with a value printed as
`%2147483648d`, the body written is `Function panic: %!(NOVERB)`, which does not end in
a newline: the crash message is used as the format of `fmt.Fprintf`, the width
`2147483648` overflows and the rest of the format, stack and final newline included, is
dropped.  The text written does not depend on the fuel of the format loop. -/
theorem adapters_panic_body_not_newline_terminated (InternalError : Int)
    (w : ResponseWriter) (r : PanicValue) (stack : GoString) (out : Out) :
    (∃ body, body ≠ []
        ∧ openFunctionAdapter InternalError (.panicked w r stack)
          = (w ++ [.HeaderSet "X-OpenFunction-Status" "crash", .WriteHeader 500,
              .Fprintf body], .returns)
        ∧ httpFunctionAdapter (.panicked w r stack)
          = (w ++ [.HeaderSet "X-OpenFunction-Status" "crash", .WriteHeader 500,
              .Fprintf body], .returns)
        ∧ ('%' ∉ r.text → '%' ∉ stack → hasNewlineSuffix body = true)
        ∧ ∀ n, (crashMessage "Function panic".toList r stack).length < n →
            doPrintfLoop n (crashMessage "Function panic".toList r stack) = body)
      ∧ RecoverPanicHTTP w "Function panic".toList none stack = w
      ∧ httpFunctionAdapter (.returned w out) = (w, .returns)
      ∧ openFunctionAdapter InternalError (.panicked w ⟨"%2147483648d".toList⟩ stack)
        = (w ++ [.HeaderSet "X-OpenFunction-Status" "crash", .WriteHeader 500,
            .Fprintf "Function panic: %!(NOVERB)".toList], .returns)
      ∧ httpFunctionAdapter (.panicked w ⟨"%2147483648d".toList⟩ stack)
        = (w ++ [.HeaderSet "X-OpenFunction-Status" "crash", .WriteHeader 500,
            .Fprintf "Function panic: %!(NOVERB)".toList], .returns)
      ∧ hasNewlineSuffix "Function panic: %!(NOVERB)".toList = false := by
  have hbody : Fprintf0 (crashMessage "Function panic".toList ⟨"%2147483648d".toList⟩ stack)
      = "Function panic: %!(NOVERB)".toList := by
    simp only [crashMessage]
    split <;> rfl
  have hbad := adapters_panicked InternalError w ⟨"%2147483648d".toList⟩ stack
  rw [hbody] at hbad
  have hany := adapters_panicked InternalError w r stack
  have hsilent := adapters_returned_guard_silent w "Function panic".toList stack out
  refine ⟨⟨_, crash_body_nonempty r stack, hany.1, hany.2, ?_, ?_⟩, hsilent.1, hsilent.2,
    hbad.1, hbad.2, by decide⟩
  · intro hr hs
    have h := crash_body_of_no_percent r stack hr hs
    rw [h.1]
    exact h.2
  · intro n hn
    exact Fprintf0_fuel n _ hn

end FunctionsFramework
